/-
Verification of the youtube-lyrics-generator pipeline against its design spec.

The Python sources are shallowly embedded over `Str := List Char`:
  * `api/agents/watcher_agent.py`   (PDF text extraction and section picking)
  * `api/agents/lyricist_agent.py`  (image-generation provider chain)
  * `api/utils/downloader.py`       (HTTP download helper)
Pure string heuristics are translated function-by-function; effectful code
(file system, network, optional third-party modules) is embedded by explicit
environment records describing each external outcome, with the file system as
a map from paths to contents or sizes.
-/
import Mathlib

/-- Python strings are embedded as lists of characters. -/
abbrev Str := List Char

/-- Convert a Lean string literal to the embedded string type. -/
def lstr (s : String) : Str := s.toList

/-- Python `str.isspace` class used by `str.strip()` / `\s`:
space, tab, newline, carriage return, vertical tab, form feed. -/
def pyIsSpace (c : Char) : Bool :=
  c = ' ' || c = '\t' || c = '\n' || c = '\r' || c = Char.ofNat 11 || c = Char.ofNat 12

/-- Python `str.strip()`: drop whitespace from both ends. -/
def pyStrip (l : Str) : Str :=
  ((l.dropWhile pyIsSpace).reverse.dropWhile pyIsSpace).reverse

/-- Python `text.split(sep)` for a single-character separator. -/
def splitOnChar (sep : Char) : Str → List Str
  | [] => [[]]
  | c :: rest =>
    if c = sep then [] :: splitOnChar sep rest
    else
      match splitOnChar sep rest with
      | [] => [[c]]
      | s :: ss => (c :: s) :: ss

/-- Python `sep.join(parts)`. -/
def joinWith (sep : Str) : List Str → Str
  | [] => []
  | [x] => x
  | x :: y :: rest => x ++ sep ++ joinWith sep (y :: rest)

/-- Worker for `str.split()` with no argument: `cur` holds the current word
reversed; whitespace flushes it. -/
def pySplitWsGo (cur : Str) : Str → List Str
  | [] => if cur = [] then [] else [cur.reverse]
  | c :: rest =>
    if pyIsSpace c then
      if cur = [] then pySplitWsGo [] rest
      else cur.reverse :: pySplitWsGo [] rest
    else pySplitWsGo (c :: cur) rest

/-- Python `str.split()` with no argument: words separated by whitespace runs. -/
def pySplitWs (l : Str) : List Str := pySplitWsGo [] l

/-- A cased character in the embedded (ASCII) model: a letter. -/
def pyCased (c : Char) : Bool := c.isAlpha

/-- Python `str.isupper()`: at least one cased character and
every cased character uppercase. -/
def pyIsUpperStr (l : Str) : Bool :=
  l.any pyCased && l.all (fun c => !pyCased c || c.isUpper)

/-- Case-insensitive test that `s` begins with `pat` (ASCII lowering),
modelling `re.IGNORECASE` literal matching. -/
def beginsCI : Str → Str → Bool
  | _, [] => true
  | [], _ :: _ => false
  | c :: cs, d :: ds => (c.toLower = d.toLower) && beginsCI cs ds

/-- `re.match(r"^\s*description\s*[:\-]?\s*$", line, re.IGNORECASE)` from
`WatcherAgent._find_description_block`, on newline-free lines (the function
only ever applies it to lines produced by `text.split("\n")`). -/
def matchesDescHeading (line : Str) : Bool :=
  let r1 := line.dropWhile pyIsSpace
  beginsCI r1 (lstr "description") &&
    (let r2 := (r1.drop 11).dropWhile pyIsSpace
     let r3 := match r2 with
       | c :: rest => if c = ':' || c = '-' then rest else r2
       | [] => r2
     r3.dropWhile pyIsSpace = [])

/-- `re.match(r"^[A-Z][A-Za-z0-9 ]{0,60}$", line)` from
`WatcherAgent._looks_like_heading` (strict end anchor: the call sites pass
newline-free stripped lines). -/
def titleCaseShort (l : Str) : Bool :=
  match l with
  | [] => false
  | c :: rest =>
    c.isUpper && decide (rest.length ≤ 60) &&
      rest.all (fun d => d.isAlpha || d.isDigit || d = ' ')

/-- `WatcherAgent._looks_like_heading`. -/
def looksLikeHeading (line : Str) : Bool :=
  if line = [] then false
  else if line.length ≤ 4 then true
  else if pyIsUpperStr line && decide (line.length ≤ 60) then true
  else if titleCaseShort line && decide ((pySplitWs line).length ≤ 8) then true
  else false

/-- `re.sub(r"\r", "\n", raw)`. -/
def crToNl (l : Str) : Str := l.map (fun c => if c = '\r' then '\n' else c)

/-- The `[ \t]` class. -/
def isSpTab (c : Char) : Bool := c = ' ' || c = '\t'

/-- Worker for collapsing space/tab runs: `inRun` records whether the
previous character was a space or tab (already emitted as one space). -/
def collapseSpTabGo (inRun : Bool) : Str → Str
  | [] => []
  | c :: rest =>
    if isSpTab c then
      if inRun then collapseSpTabGo true rest
      else ' ' :: collapseSpTabGo true rest
    else c :: collapseSpTabGo false rest

/-- `re.sub(r"[ \t]+", " ", raw)`: collapse space/tab runs to one space. -/
def collapseSpTab (l : Str) : Str := collapseSpTabGo false l

/-- Worker for collapsing newline runs: `k` counts the newlines of the run
currently being read; a run of `k` newlines is emitted as `min k 2`. -/
def collapseNlGo (k : Nat) : Str → Str
  | [] => List.replicate (min k 2) '\n'
  | c :: rest =>
    if c = '\n' then collapseNlGo (k + 1) rest
    else List.replicate (min k 2) '\n' ++ c :: collapseNlGo 0 rest

/-- `re.sub(r"\n{3,}", "\n\n", raw)`: collapse runs of three or more
newlines to exactly two. -/
def collapseNlRuns (l : Str) : Str := collapseNlGo 0 l

/-- `WatcherAgent._normalize_whitespace`. -/
def normalizeWhitespace (raw : Str) : Str :=
  if raw = [] then []
  else pyStrip (collapseNlRuns (collapseSpTab (crToNl raw)))

/-- `hay` has `sub` as a contiguous substring. -/
def ContainsS (hay sub : Str) : Prop := ∃ a b, hay = a ++ sub ++ b

/-- Attempt to match the separator regex `\n\s*\n` at the head of the string
(greedy `\s*`, backtracking so the match ends at the last newline of the
whitespace run). Returns the remainder after the match. -/
def matchBlankSep : Str → Option Str
  | [] => none
  | c :: rest =>
    if c = '\n' then
      let run := rest.takeWhile pyIsSpace
      match run.reverse.findIdx? (fun d => d = '\n') with
      | some m => some (rest.drop (run.length - m))
      | none => none
    else none

/-- Worker for `re.split(r"\n\s*\n", text)`, collecting the current chunk
(reversed) while scanning for separator matches. The `fuel` argument only
encodes termination: every separator match consumes at least one character,
so any `fuel` exceeding the string length gives the exact semantics. -/
def pySplitBlankGo (fuel : Nat) (acc : Str) (l : Str) : List Str :=
  match fuel with
  | 0 => [acc.reverse ++ l]
  | fuel + 1 =>
    match l with
    | [] => [acc.reverse]
    | c :: rest =>
      match matchBlankSep (c :: rest) with
      | some rest' => acc.reverse :: pySplitBlankGo fuel [] rest'
      | none => pySplitBlankGo fuel (c :: acc) rest

/-- `re.split(r"\n\s*\n", text)` from `WatcherAgent._find_description_block`. -/
def pySplitBlank (s : Str) : List Str := pySplitBlankGo (s.length + 1) [] s

/-- The accumulation loop of `WatcherAgent._normalize_paragraphs`:
`cur` holds the current paragraph's lines in reverse; an empty line flushes
the paragraph, and a trailing paragraph is flushed at the end. -/
def paraGroupsGo (cur : List Str) : List Str → List (List Str)
  | [] => if cur = [] then [] else [cur.reverse]
  | l :: rest =>
    if l = [] then
      if cur = [] then paraGroupsGo [] rest
      else cur.reverse :: paraGroupsGo [] rest
    else paraGroupsGo (l :: cur) rest

/-- Groups of consecutive non-empty lines, as accumulated by
`WatcherAgent._normalize_paragraphs`. -/
def paraGroups (lines : List Str) : List (List Str) := paraGroupsGo [] lines

/-- `WatcherAgent._normalize_paragraphs`: join each run of non-empty lines
with spaces, then join the paragraphs with blank lines. -/
def normalizeParagraphs (lines : List Str) : Str :=
  joinWith (lstr "\n\n") ((paraGroups lines).map (joinWith (lstr " ")))

/-- The collection loop after a matched Description heading in
`WatcherAgent._find_description_block`: take lines until one looks like a
heading. -/
def collectBlock (rest : List Str) : List Str :=
  rest.takeWhile (fun x => !looksLikeHeading x)

/-- The heading-scanning loop of `WatcherAgent._find_description_block`. -/
def findDescLoop : List Str → Option Str
  | [] => none
  | l :: rest =>
    if matchesDescHeading l then
      let cand := pyStrip (normalizeParagraphs (collectBlock rest))
      if cand ≠ [] then some (pyStrip (cand.take 1200))
      else findDescLoop rest
    else findDescLoop rest

/-- `WatcherAgent._find_description_block`. -/
def findDescriptionBlock (text : Str) : Str :=
  if text = [] then []
  else
    let lines := (splitOnChar '\n' text).map pyStrip
    match findDescLoop lines with
    | some c => c
    | none =>
      let paragraphs := ((pySplitBlank text).map pyStrip).filter (fun p => p ≠ [])
      match paragraphs.find? (fun p => decide (40 ≤ p.length)) with
      | some p => pyStrip (p.take 1200)
      | none => pyStrip (text.take 300)

/-- One iteration of `WatcherAgent._pick_best_text`: replace `best` by `c`
when `c` is truthy and strictly longer after stripping. -/
def pickBestStep (best c : Str) : Str :=
  if c ≠ [] && decide ((pyStrip best).length < (pyStrip c).length) then c
  else best

/-- `WatcherAgent._pick_best_text`: longest candidate by stripped length,
ignoring empty candidates. -/
def pickBestText (cands : List Str) : Str :=
  cands.foldl pickBestStep []

/-- The fixed remediation hints of `WatcherAgent._build_guidance_message`. -/
def watcherHints : List Str :=
  [lstr "- Ensure the PDF contains selectable text. If it\x27s scanned, OCR is required.",
   lstr "- If OCR failed, install the Tesseract binary and language data:",
   lstr "  • Ubuntu/Debian: sudo apt-get update && sudo apt-get install -y tesseract-ocr",
   lstr "  • macOS (Homebrew): brew install tesseract",
   lstr "  • Windows: Install from https://github.com/tesseract-ocr/tesseract and ensure it is on PATH",
   lstr "- Re-run after installing system dependencies and Python packages."]

/-- `WatcherAgent._build_guidance_message`. -/
def buildGuidance (errors : List Str) : Str :=
  lstr "Tried multiple extraction backends but could not obtain a suitable description.\n\nAttempted backends and errors:\n" ++
    (if errors = [] then lstr "* No errors captured (empty text)."
     else joinWith (lstr "\n") (errors.map (fun e => lstr "* " ++ e))) ++
    lstr "\n\nHow to proceed:\n" ++ joinWith (lstr "\n") watcherHints

/-- `WatcherResult` dataclass from `watcher_agent.py`. -/
structure WatcherResult where
  success : Bool
  description : Option Str := none
  error : Option Str := none
  details : Option Str := none
deriving DecidableEq

/-- Outcome of one optional text-extraction backend: the module failed to
import, the extraction call raised, or it returned raw page text (the raw
text is what `"\n".join(chunks)` yields before normalization). -/
inductive Attempt where
  | unavail : Attempt
  | failed (msg : Str) : Attempt
  | got (raw : Str) : Attempt
deriving DecidableEq

/-- Outcome of the OCR helper when actually run: raised or returned raw text. -/
inductive CallRes where
  | err (msg : Str)
  | ok (raw : Str)
deriving DecidableEq

/-- Environment of one `WatcherAgent.get_description_from_pdf` call: the
result of the path check and of each optional backend.  `tessAvail` is
whether `pytesseract` imported; the `fitz` module is available exactly when
`fitz ≠ unavail`. -/
structure PdfEnv where
  pathOk : Bool
  pypdf2 : Attempt
  plumber : Attempt
  fitz : Attempt
  tessAvail : Bool
  ocr : CallRes

/-- The `texts` list accumulated by `get_description_from_pdf`: each
successful backend contributes its name and normalized text (the extraction
helpers end with `_normalize_whitespace`).  No entry is added for a missing
or failing backend. -/
def watcherTexts (env : PdfEnv) : List (Str × Str) :=
  (match env.pypdf2 with
   | .got r => [(lstr "PyPDF2", normalizeWhitespace r)]
   | _ => []) ++
  (match env.plumber with
   | .got r => [(lstr "pdfplumber", normalizeWhitespace r)]
   | _ => []) ++
  (match env.fitz with
   | .got r => [(lstr "PyMuPDF", normalizeWhitespace r)]
   | _ => [])

/-- The `errors` list after the three text backends.  Note the source records
no message when PyPDF2 itself is missing (its `if` has no `else`). -/
def watcherErrs0 (env : PdfEnv) : List Str :=
  (match env.pypdf2 with
   | .failed e => [lstr "PyPDF2 failed: " ++ e]
   | _ => []) ++
  (match env.plumber with
   | .failed e => [lstr "pdfplumber failed: " ++ e]
   | .unavail => [lstr "pdfplumber not installed."]
   | _ => []) ++
  (match env.fitz with
   | .failed e => [lstr "PyMuPDF failed: " ++ e]
   | .unavail => [lstr "PyMuPDF (fitz) not installed."]
   | _ => [])

/-- `best_text` before the OCR step. -/
def bestBefore (env : PdfEnv) : Str :=
  pickBestText ((watcherTexts env).map Prod.snd)

/-- `used_backend` before the OCR step: the first backend whose text is
non-empty after stripping, sought only when `best_text` is non-empty. -/
def usedBackend0 (env : PdfEnv) : Option Str :=
  if bestBefore env ≠ [] then
    ((watcherTexts env).find? (fun bt => bt.2 ≠ [] && pyStrip bt.2 ≠ [])).map Prod.fst
  else none

/-- The guard of the OCR block: no best text, or best text under 40
characters after stripping. -/
def ocrNeeded (env : PdfEnv) : Bool :=
  bestBefore env = [] || decide ((pyStrip (bestBefore env)).length < 40)

/-- Whether the `fitz` module imported. -/
def fitzModuleAvail (env : PdfEnv) : Bool := env.fitz ≠ Attempt.unavail

/-- Whether `_extract_text_with_ocr` is actually invoked. -/
def ocrRun (env : PdfEnv) : Bool :=
  ocrNeeded env && env.tessAvail && fitzModuleAvail env

/-- `ocr_text` as produced by `_extract_text_with_ocr` (normalized); empty
when the call raised. -/
def ocrText (env : PdfEnv) : Str :=
  match env.ocr with
  | .ok r => normalizeWhitespace r
  | .err _ => []

/-- The acceptance test `ocr_text and len(ocr_text.strip()) > len(best_text
or "")` guarding the OCR supersession of `best_text`. -/
def ocrAccepted (env : PdfEnv) : Bool :=
  ocrRun env && ocrText env ≠ [] &&
    decide ((bestBefore env).length < (pyStrip (ocrText env)).length)

/-- `best_text` after the OCR step. -/
def finalBest (env : PdfEnv) : Str :=
  if ocrAccepted env then ocrText env else bestBefore env

/-- `used_backend` after the OCR step. -/
def usedBackend (env : PdfEnv) : Option Str :=
  if ocrAccepted env then some (lstr "OCR(pytesseract)+PyMuPDF")
  else usedBackend0 env

/-- The full `errors` list, including the OCR block's messages. -/
def watcherErrs (env : PdfEnv) : List Str :=
  watcherErrs0 env ++
    (if ocrNeeded env then
      (if env.tessAvail && fitzModuleAvail env then
        match env.ocr with
        | .err e => [lstr "OCR fallback failed: " ++ e]
        | .ok _ => []
      else
        (if !env.tessAvail then [lstr "OCR not available: pytesseract not installed."] else []) ++
          (if !fitzModuleAvail env then [lstr "OCR requires PyMuPDF (fitz) to rasterize pages to images."] else []))
    else [])

/-- `WatcherAgent.get_description_from_pdf`. -/
def getDescriptionFromPdf (env : PdfEnv) (pdfPath : Str) : WatcherResult :=
  if pdfPath = [] || pyStrip pdfPath = [] then
    { success := false, error := some (lstr "No PDF path provided."),
      details := some (lstr "Please provide a valid path to a PDF file.") }
  else if !env.pathOk then
    { success := false, error := some (lstr "PDF file does not exist."),
      details := some (lstr "Provided path: " ++ pyStrip pdfPath) }
  else
    let text := normalizeWhitespace (finalBest env)
    let description := findDescriptionBlock text
    if description = [] then
      { success := false,
        error := some (lstr "No suitable description text found in the PDF."),
        details := some (buildGuidance (watcherErrs env)) }
    else
      { success := true, description := some description,
        details := some (match usedBackend env with
          | some b => lstr "Extracted via: " ++ b
          | none => lstr "Extracted via: Unknown backend") }

/-- `ImageResult` dataclass from `lyricist_agent.py`. -/
structure ImageResult where
  success : Bool
  image_path : Option Str := none
  error : Option Str := none
  details : Option Str := none
deriving DecidableEq

/-- Outcome of one effectful generation call (`_generate_with_replicate`,
`_generate_with_openai`, `_render_placeholder`): the call raised, or it
returned, having written `some n` bytes to the output path (or written
nothing at all: `returns none`). -/
inductive CallOutcome where
  | raises (msg : Str)
  | returns (written : Option Nat)
deriving DecidableEq

/-- File sizes by path. -/
abbrev SizeFs := Str → Option Nat

/-- Point update of a size file system. -/
def fsUpdate (fs : SizeFs) (p : Str) (v : Option Nat) : SizeFs :=
  fun q => if q = p then v else fs q

/-- Effect of a generation call on the file system. -/
def applyCall (fs : SizeFs) (path : Str) : CallOutcome → SizeFs
  | .raises _ => fs
  | .returns none => fs
  | .returns (some n) => fsUpdate fs path (some n)

/-- `os.path.exists(p)`: the empty path never exists. -/
def pyExists (fs : SizeFs) (p : Str) : Bool := p ≠ [] && (fs p).isSome

/-- `os.path.getsize(p)` (0 when absent; only read behind an exists check). -/
def pyGetSize (fs : SizeFs) (p : Str) : Nat := (fs p).getD 0

/-- Which provider produced the returned image. -/
inductive ImgProvider where
  | replicate | openai | localRender
deriving DecidableEq

/-- Environment of one `LyricistAgent.generate_image_from_description`
call: the credential environment variables, whether Pillow imported, the
outcome of each potential provider call, and the initial file system.
`openaiKeyVar = none` models an unset `OPENAI_API_KEY` (read once with
default `""` and once with default `None`). -/
structure ImgEnv where
  replicateToken : Str
  openaiKeyVar : Option Str
  pillowAvail : Bool
  replicateCall : CallOutcome
  openaiCall : CallOutcome
  openaiDetail : Str
  renderCall : CallOutcome
  initFs : SizeFs

/-- Result of a run together with its observable trace: the `attempted`
list, the `api_errors` list, the stdout lines (timing diagnostics omitted:
they carry wall-clock content outside the model), the final file system and
the provider that produced the image, if any. -/
structure ImgRun where
  result : ImageResult
  attempted : List Str
  apiErrors : List Str
  prints : List Str
  fs : SizeFs
  provider : Option ImgProvider

/-- `os.getenv("OPENAI_API_KEY", "")`. -/
def openaiKeyStr (env : ImgEnv) : Str := env.openaiKeyVar.getD []

/-- Rendering of a possibly-absent environment variable inside an f-string
(`str(None) = "None"`). -/
def pyShowOpt : Option Str → Str
  | none => lstr "None"
  | some s => s

/-- The first stdout line of every call. -/
def prCalled : Str := lstr "[LyricistAgent] generate_image_from_description called"

/-- Stdout line for the masked Replicate credential check. -/
def prEnvRep (env : ImgEnv) : Str :=
  lstr "[LyricistAgent] Env check: REPLICATE_API_TOKEN set? " ++
    (if env.replicateToken ≠ [] then lstr "yes" else lstr "no")

/-- Stdout line printing the OpenAI key in clear text. -/
def prEnvOpenai (env : ImgEnv) : Str :=
  lstr "[LyricistAgent] Env check: OPENAI_API_KEY value: " ++
    pyShowOpt env.openaiKeyVar ++
    lstr " (note: printed for diagnostics as requested)"

/-- Whether the Replicate branch is entered: `(replicate_token or "").strip()`. -/
def replicateTried (env : ImgEnv) : Bool := pyStrip env.replicateToken ≠ []

/-- Whether the OpenAI branch would be entered: `(openai_key or "").strip()`. -/
def openaiTried (env : ImgEnv) : Bool := pyStrip (openaiKeyStr env) ≠ []

/-- File system after the Replicate call (when tried). -/
def fsAfterReplicate (env : ImgEnv) (out : Str) : SizeFs :=
  applyCall env.initFs out env.replicateCall

/-- Whether the Replicate attempt returns a usable image: the call returned
and the output file exists with positive size. -/
def replicateOk (env : ImgEnv) (out : Str) : Bool :=
  replicateTried env &&
    (match env.replicateCall with
     | .raises _ => false
     | .returns _ =>
       pyExists (fsAfterReplicate env out) out &&
         decide (0 < pyGetSize (fsAfterReplicate env out) out))

/-- The `api_errors` entry recorded when the Replicate attempt fails (the
raised message stands for `f"{e}\n{tb}"`; a returning call with no usable
file raises `RuntimeError("Replicate returned no image bytes or file is
empty.")`). -/
def repFailMsg (env : ImgEnv) : Str :=
  match env.replicateCall with
  | .raises e => lstr "Replicate failed: " ++ e
  | .returns _ => lstr "Replicate failed: Replicate returned no image bytes or file is empty."

/-- Analogue of `replicateOk` for the OpenAI attempt, applied to the file
system it starts from. -/
def openaiOkFrom (env : ImgEnv) (fs : SizeFs) (out : Str) : Bool :=
  match env.openaiCall with
  | .raises _ => false
  | .returns _ =>
    pyExists (applyCall fs out env.openaiCall) out &&
      decide (0 < pyGetSize (applyCall fs out env.openaiCall) out)

/-- The `api_errors` entry recorded when the OpenAI attempt fails. -/
def oaFailMsg (env : ImgEnv) : Str :=
  match env.openaiCall with
  | .raises e => lstr "OpenAI failed: " ++ e
  | .returns _ => lstr "OpenAI failed: OpenAI returned no image bytes or file is empty."

/-- The `details` string built on the fallback paths:
`f"Attempted: {', '.join(attempted) or 'none'} | " + (" | ".join(api_errors)
if api_errors else "No API keys configured.")`. -/
def imgDetailsStr (attempted apiErrors : List Str) : Str :=
  lstr "Attempted: " ++
    (if attempted = [] then lstr "none" else joinWith (lstr ", ") attempted) ++
    lstr " | " ++
    (if apiErrors = [] then lstr "No API keys configured."
     else joinWith (lstr " | ") apiErrors)

/-- Failure `ImageResult` (error and details set). -/
def imgFail (e d : Str) : ImageResult :=
  { success := false, error := some e, details := some d }

/-- Success `ImageResult` (image path and details set). -/
def imgOk (p d : Str) : ImageResult :=
  { success := true, image_path := some p, details := some d }

/-- The terminal Pillow-fallback stage of `generate_image_from_description`,
starting from the `attempted`/`api_errors`/stdout state left by the remote
providers. -/
def imgStageFallback (env : ImgEnv) (d out : Str)
    (attempted apiErrors prints : List Str) (fs : SizeFs) : ImgRun :=
  if !env.pillowAvail then
    { result := imgFail
        (lstr "No image generated. Pillow not installed and external APIs unavailable/failed.")
        (imgDetailsStr attempted apiErrors ++
          lstr " Install Pillow or set REPLICATE_API_TOKEN / OPENAI_API_KEY in environment."),
      attempted := attempted, apiErrors := apiErrors,
      prints := prints ++ [lstr "[LyricistAgent] Falling back failed: Pillow not available."],
      fs := fs, provider := none }
  else
    let prints := prints ++
      [lstr "[LyricistAgent] Using local Pillow fallback renderer (no external API succeeded)."]
    match env.renderCall with
    | .raises e =>
      { result := imgFail (lstr "Failed to generate image (fallback).")
          (imgDetailsStr attempted apiErrors ++ lstr " | " ++ e),
        attempted := attempted, apiErrors := apiErrors,
        prints := prints ++ [lstr "[LyricistAgent] Local fallback rendering failed: " ++ e],
        fs := fs, provider := none }
    | .returns w =>
      let fs' := applyCall fs out (.returns w)
      if !pyExists fs' out then
        { result := imgFail (lstr "Image file not created.")
            (imgDetailsStr attempted apiErrors ++ lstr " Tried: " ++ out),
          attempted := attempted, apiErrors := apiErrors,
          prints := prints ++
            [lstr "[LyricistAgent] Expected output file missing after fallback: " ++ out],
          fs := fs', provider := none }
      else
        { result := imgOk out
            (lstr "Rendered locally (fallback placeholder) | prompt snippet: " ++ d.take 80),
          attempted := attempted, apiErrors := apiErrors, prints := prints,
          fs := fs', provider := some .localRender }

/-- The OpenAI stage of `generate_image_from_description` followed by the
fallback stage. -/
def imgStageOpenai (env : ImgEnv) (d out : Str)
    (attempted apiErrors prints : List Str) (fs : SizeFs) : ImgRun :=
  if openaiTried env then
    let attempted := attempted ++ [lstr "OpenAI"]
    let prints := prints ++ [lstr "[LyricistAgent] Attempting OpenAI Images generation..."]
    let fs' := applyCall fs out env.openaiCall
    if openaiOkFrom env fs out then
      { result := imgOk out
          (lstr "Generated via OpenAI (" ++ env.openaiDetail ++
            lstr ") | prompt snippet: " ++ d.take 80),
        attempted := attempted, apiErrors := apiErrors, prints := prints,
        fs := fs', provider := some .openai }
    else
      imgStageFallback env d out attempted (apiErrors ++ [oaFailMsg env])
        (prints ++ [lstr "[LyricistAgent] OpenAI error."]) fs'
  else
    imgStageFallback env d out attempted apiErrors
      (prints ++ [lstr "[LyricistAgent] Skipping OpenAI: OPENAI_API_KEY not set or empty."]) fs

/-- `LyricistAgent.generate_image_from_description`. -/
def generateImageFromDescription (env : ImgEnv) (description out : Str) : ImgRun :=
  if description = [] || pyStrip description = [] then
    { result := imgFail (lstr "Description is empty.") (lstr "Provide a non-empty description."),
      attempted := [], apiErrors := [],
      prints := [prCalled, lstr "[LyricistAgent] Provided description is empty - aborting."],
      fs := env.initFs, provider := none }
  else
    let d := pyStrip description
    let prints := [prCalled, prEnvRep env, prEnvOpenai env]
    if replicateTried env then
      let attempted := [lstr "Replicate"]
      let prints := prints ++ [lstr "[LyricistAgent] Attempting Replicate image generation..."]
      let fs1 := fsAfterReplicate env out
      if replicateOk env out then
        { result := imgOk out (lstr "Generated via Replicate | prompt snippet: " ++ d.take 80),
          attempted := attempted, apiErrors := [], prints := prints,
          fs := fs1, provider := some .replicate }
      else
        imgStageOpenai env d out attempted [repFailMsg env]
          (prints ++ [lstr "[LyricistAgent] Replicate error."]) fs1
    else
      imgStageOpenai env d out [] []
        (prints ++ [lstr "[LyricistAgent] Skipping Replicate: REPLICATE_API_TOKEN not set."])
        env.initFs

/-- `DownloadResult` dataclass from `downloader.py`. -/
structure DownloadResult where
  success : Bool
  file_path : Option Str := none
  error : Option Str := none
  details : Option Str := none
deriving DecidableEq

/-- File contents by path. -/
abbrev ContentFs := Str → Option Str

/-- Point update of a content file system (`none` removes the file). -/
def cfsUpdate (fs : ContentFs) (p : Str) (v : Option Str) : ContentFs :=
  fun q => if q = p then v else fs q

/-- Characters allowed after the first one in a URL scheme. -/
def schemeChar (c : Char) : Bool :=
  c.isAlpha || c.isDigit || c = '+' || c = '-' || c = '.'

/-- `urllib.parse.urlparse(url).scheme`: the lowercased part before the
first colon when it is a letter followed by letters, digits, `+`, `-`, `.`;
otherwise the empty string. -/
def urlScheme (u : Str) : Str :=
  let head := u.takeWhile (fun c => c ≠ ':')
  if head.length < u.length &&
      (match head with
       | c :: rest => c.isAlpha && rest.all schemeChar
       | [] => false) then
    head.map Char.toLower
  else []

/-- Outcome of `requests.get(url, stream=True, ...)` and of iterating the
body: an SSL / timeout / other network exception, or a response with a
status code and body chunks.  `midErr = some m` means iterating the body (or
writing it) raised after the listed chunks were written. -/
inductive ReqOutcome where
  | sslErr (msg : Str)
  | timeoutErr (msg : Str)
  | netErr (msg : Str)
  | resp (status : Nat) (chunks : List Str) (midErr : Option Str)

/-- Environment of one `download_pdf_to_temp` call: the network outcome, the
path `tempfile.mkstemp` returns, whether re-opening the file for the header
double-check raises, and the initial file system. -/
structure DlEnv where
  req : ReqOutcome
  tempPath : Str
  reopenFail : Option Str
  initFs : ContentFs

/-- Failure `DownloadResult` (error and details set). -/
def dlFail (e d : Str) : DownloadResult :=
  { success := false, error := some e, details := some d }

/-- `first_bytes`: the first five bytes of the first non-empty chunk. -/
def firstBytes (chunks : List Str) : Str :=
  match chunks.find? (fun c => c ≠ []) with
  | some c => c.take 5
  | none => []

/-- `download_pdf_to_temp` from `api/utils/downloader.py`, returning the
result together with the final file system. -/
def downloadPdfToTemp (env : DlEnv) (url : Str) (verifyPdf : Bool) :
    DownloadResult × ContentFs :=
  let u := pyStrip url
  if u = [] then
    (dlFail (lstr "No URL provided.") (lstr "Please provide a valid HTTPS/HTTP URL to a PDF."),
     env.initFs)
  else
    let scheme := urlScheme u
    if scheme ≠ lstr "http" && scheme ≠ lstr "https" then
      (dlFail (lstr "Unsupported URL scheme.")
        (lstr "URL must start with http or https. Got: " ++
          (if scheme = [] then lstr "none" else scheme)),
       env.initFs)
    else
      match env.req with
      | .sslErr m => (dlFail (lstr "SSL error during download.") m, env.initFs)
      | .timeoutErr m => (dlFail (lstr "Network timeout during download.") m, env.initFs)
      | .netErr m => (dlFail (lstr "Network error during download.") m, env.initFs)
      | .resp status chunks midErr =>
        if status ≠ 200 then
          (dlFail (lstr "HTTP " ++ lstr (toString status) ++ lstr " while downloading.")
            (lstr "URL: " ++ u),
           env.initFs)
        else
          match midErr with
          | some m =>
            (dlFail (lstr "Failed to write downloaded file.") m,
             cfsUpdate env.initFs env.tempPath none)
          | none =>
            let content := chunks.flatten
            let fs2 := cfsUpdate env.initFs env.tempPath (some content)
            if verifyPdf && firstBytes chunks ≠ lstr "%PDF-" then
              match env.reopenFail with
              | some m =>
                (dlFail (lstr "Failed to verify downloaded file.") m,
                 cfsUpdate env.initFs env.tempPath none)
              | none =>
                if content.take 5 ≠ lstr "%PDF-" then
                  (dlFail (lstr "Downloaded file is not a valid PDF.")
                    (lstr "Header signature %PDF- not found."),
                   cfsUpdate env.initFs env.tempPath none)
                else
                  ({ success := true, file_path := some env.tempPath }, fs2)
            else
              ({ success := true, file_path := some env.tempPath }, fs2)




/-- The file system the OpenAI stage starts from. -/
def imgFsBeforeOpenai (env : ImgEnv) (out : Str) : SizeFs :=
  if replicateTried env then fsAfterReplicate env out else env.initFs

/-- Whether the OpenAI attempt (in its actual position in the chain)
produces a usable image. -/
def openaiOk2 (env : ImgEnv) (out : Str) : Bool :=
  openaiTried env && openaiOkFrom env (imgFsBeforeOpenai env out) out

/-- The file system the Pillow fallback starts from. -/
def imgFsBeforeFallback (env : ImgEnv) (out : Str) : SizeFs :=
  if openaiTried env then applyCall (imgFsBeforeOpenai env out) out env.openaiCall
  else imgFsBeforeOpenai env out

/-- Whether the local fallback renderer yields a success: Pillow imported,
the render call returned, and the output file exists afterwards (the source
does not check its size here). -/
def localAccept (env : ImgEnv) (out : Str) : Bool :=
  env.pillowAvail &&
    (match env.renderCall with
     | .raises _ => false
     | .returns w => pyExists (applyCall (imgFsBeforeFallback env out) out (.returns w)) out)

/-- Whether a backend produced text. -/
def Attempt.isGot : Attempt → Bool
  | .got _ => true
  | _ => false

/-- Whether an OCR call raised. -/
def CallRes.isErr : CallRes → Bool
  | .err _ => true
  | .ok _ => false

/- Concrete environments and inputs used by witnesses and counterexamples. -/

/-- A PDF environment whose only textual result is short, with OCR available
and productive: exercises the OCR branch. -/
def c2Env : PdfEnv :=
  { pathOk := true, pypdf2 := .got (lstr "abc"), plumber := .unavail,
    fitz := .failed (lstr "parse error"), tessAvail := true,
    ocr := .ok (lstr "a sufficiently long optical text result") }

/-- A PDF environment in which every backend fails or is missing. -/
def c3Env : PdfEnv :=
  { pathOk := true, pypdf2 := .failed (lstr "bad xref table"), plumber := .unavail,
    fitz := .unavail, tessAvail := false, ocr := .err (lstr "unused") }

/-- A PDF environment producing a successful extraction. -/
def c7PdfEnv : PdfEnv :=
  { pathOk := true,
    pypdf2 := .got (lstr "A very long descriptive paragraph about the video content here."),
    plumber := .unavail, fitz := .unavail, tessAvail := false, ocr := .err [] }

/-- C1 counterexample environment: a whitespace-only Replicate token, no
OpenAI key, and no Pillow. -/
def c1Env : ImgEnv :=
  { replicateToken := lstr " ", openaiKeyVar := none, pillowAvail := false,
    replicateCall := .returns none, openaiCall := .returns none,
    openaiDetail := [], renderCall := .returns none, initFs := fun _ => none }

/-- C1 witness environment: Replicate configured but raising, no OpenAI key,
Pillow available and rendering successfully. -/
def c1WEnv : ImgEnv :=
  { replicateToken := lstr "tok", openaiKeyVar := none, pillowAvail := true,
    replicateCall := .raises (lstr "boom"), openaiCall := .returns none,
    openaiDetail := [], renderCall := .returns (some 10), initFs := fun _ => none }

/-- C8 counterexample environment: no remote credentials; the local renderer
returns after writing a zero-byte file. -/
def c8Env : ImgEnv :=
  { replicateToken := [], openaiKeyVar := none, pillowAvail := true,
    replicateCall := .returns none, openaiCall := .returns none,
    openaiDetail := [], renderCall := .returns (some 0), initFs := fun _ => none }

/-- C8 witness environment: Replicate configured and writing a real image. -/
def c8WEnv : ImgEnv :=
  { replicateToken := lstr "tok", openaiKeyVar := none, pillowAvail := true,
    replicateCall := .returns (some 10), openaiCall := .returns none,
    openaiDetail := [], renderCall := .returns none, initFs := fun _ => none }

/-- C10 witness environment: an OpenAI key is set. -/
def c10Env : ImgEnv :=
  { replicateToken := [], openaiKeyVar := some (lstr "sk-secret-key-1"),
    pillowAvail := true, replicateCall := .returns none,
    openaiCall := .raises (lstr "quota"), openaiDetail := [],
    renderCall := .returns (some 7), initFs := fun _ => none }

/-- A download environment that succeeds. -/
def c9Env : DlEnv :=
  { req := .resp 200 [lstr "%PDF-1.4 body"] none, tempPath := lstr "/tmp/dl.pdf",
    reopenFail := none, initFs := fun _ => none }

/-- A download environment whose body is not a PDF. -/
def c9EnvBad : DlEnv :=
  { req := .resp 200 [lstr "<html>nope</html>"] none, tempPath := lstr "/tmp/dl.pdf",
    reopenFail := none, initFs := fun _ => none }

/-- An image environment that fails outright (no providers, no Pillow). -/
def c7ImgEnvFail : ImgEnv :=
  { replicateToken := [], openaiKeyVar := none, pillowAvail := false,
    replicateCall := .returns none, openaiCall := .returns none,
    openaiDetail := [], renderCall := .returns none, initFs := fun _ => none }

/-- First paragraph of the C4 counterexample: 1199 letters. -/
def c4Para1 : Str := List.replicate 1199 'a'

/-- Second paragraph of the C4 counterexample. -/
def c4Para2 : Str := lstr "bbbbb"

/-- C4 counterexample text: a Description heading followed by two non-heading
paragraphs whose joined length exceeds 1200 with a newline at the cut. -/
def cex4Text : Str := lstr "Description
" ++ c4Para1 ++ lstr "

" ++ c4Para2

/-- C6 counterexample text: a single 1201-character paragraph with a space at
position 1199. -/
def cex6Text : Str := List.replicate 1199 'a' ++ lstr " b"

theorem length_dropWhile_le {α : Type} (p : α → Bool) (l : List α) :
    (l.dropWhile p).length ≤ l.length := by
  induction l with
  | nil => simp [List.dropWhile]
  | cons c rest ih =>
    by_cases h : p c
    · simp [List.dropWhile, h]; omega
    · simp [List.dropWhile, h]

theorem pyStrip_length_le (l : Str) : (pyStrip l).length ≤ l.length := by
  unfold pyStrip
  have h1 := length_dropWhile_le pyIsSpace l
  have h2 := length_dropWhile_le pyIsSpace (l.dropWhile pyIsSpace).reverse
  simp only [List.length_reverse] at h2 ⊢
  omega

theorem containsS_refl_mid (a x b : Str) : ContainsS (a ++ x ++ b) x := ⟨a, b, rfl⟩

theorem containsS_inner {h y x : Str} (hy : ContainsS h y) (hx : ContainsS y x) :
    ContainsS h x := by
  obtain ⟨a, b, rfl⟩ := hy
  obtain ⟨c, d, rfl⟩ := hx
  exact ⟨a ++ c, d ++ b, by simp [List.append_assoc]⟩

theorem mem_joinWith {e : Str} {l : List Str} (sep : Str) (h : e ∈ l) :
    ContainsS (joinWith sep l) e := by
  induction l with
  | nil => cases h
  | cons x rest ih =>
    rcases List.mem_cons.mp h with rfl | hmem
    · cases rest with
      | nil => exact ⟨[], [], by simp [joinWith]⟩
      | cons y t => exact ⟨[], sep ++ joinWith sep (y :: t), by simp [joinWith]⟩
    · cases rest with
      | nil => cases hmem
      | cons y t =>
        obtain ⟨a, b, hab⟩ := ih hmem
        exact ⟨x ++ sep ++ a, b, by simp [joinWith, hab, List.append_assoc]⟩

/-- Every recorded error appears verbatim in the guidance message. -/
theorem mem_buildGuidance {e : Str} {errors : List Str} (h : e ∈ errors) :
    ContainsS (buildGuidance errors) e := by
  have hne : errors ≠ [] := by rintro rfl; cases h
  have hmem : (lstr "* " ++ e) ∈ errors.map (fun x => lstr "* " ++ x) :=
    List.mem_map_of_mem _ h
  have h1 : ContainsS (joinWith (lstr "\n") (errors.map (fun x => lstr "* " ++ x)))
      (lstr "* " ++ e) := mem_joinWith _ hmem
  have h2 : ContainsS (joinWith (lstr "\n") (errors.map (fun x => lstr "* " ++ x))) e :=
    containsS_inner h1 ⟨lstr "* ", [], by simp⟩
  obtain ⟨a, b, hab⟩ := h2
  refine ⟨lstr "Tried multiple extraction backends but could not obtain a suitable description.\n\nAttempted backends and errors:\n" ++ a,
    b ++ (lstr "\n\nHow to proceed:\n" ++ joinWith (lstr "\n") watcherHints), ?_⟩
  simp [buildGuidance, if_neg hne, hab, List.append_assoc]

/-- The guidance message always carries the remediation section. -/
theorem buildGuidance_hints (errors : List Str) :
    ContainsS (buildGuidance errors) (lstr "How to proceed:") ∧
      ContainsS (buildGuidance errors) (lstr "tesseract-ocr") := by
  constructor
  · refine ⟨lstr "Tried multiple extraction backends but could not obtain a suitable description.\n\nAttempted backends and errors:\n" ++
      (if errors = [] then lstr "* No errors captured (empty text)."
       else joinWith (lstr "\n") (errors.map (fun e => lstr "* " ++ e))) ++ lstr "\n\n",
      lstr "\n" ++ joinWith (lstr "\n") watcherHints, ?_⟩
    simp [buildGuidance, List.append_assoc, lstr]
  · have hm : ContainsS (joinWith (lstr "\n") watcherHints)
        (lstr "  • Ubuntu/Debian: sudo apt-get update && sudo apt-get install -y tesseract-ocr") :=
      mem_joinWith _ (by simp [watcherHints])
    have h2 : ContainsS (joinWith (lstr "\n") watcherHints) (lstr "tesseract-ocr") :=
      containsS_inner hm
        ⟨lstr "  • Ubuntu/Debian: sudo apt-get update && sudo apt-get install -y ", [], by simp [lstr]⟩
    obtain ⟨a, b, hab⟩ := h2
    refine ⟨lstr "Tried multiple extraction backends but could not obtain a suitable description.\n\nAttempted backends and errors:\n" ++
      (if errors = [] then lstr "* No errors captured (empty text)."
       else joinWith (lstr "\n") (errors.map (fun e => lstr "* " ++ e))) ++
      lstr "\n\nHow to proceed:\n" ++ a, b, ?_⟩
    simp [buildGuidance, hab, List.append_assoc]

theorem collectBlock_stops_aux (pre : List Str) (l : Str) (post : List Str)
    (hpre : ∀ x ∈ pre, looksLikeHeading x = false) (hl : looksLikeHeading l = true) :
    collectBlock (pre ++ l :: post) = pre := by
  induction pre with
  | nil => simp [collectBlock, List.takeWhile, hl]
  | cons x rest ih =>
    have hx : looksLikeHeading x = false := hpre x (by simp)
    have hih := ih (fun y hy => hpre y (by simp [hy]))
    simp only [collectBlock, List.cons_append, List.takeWhile_cons, hx] at hih ⊢
    simp only [Bool.not_false, if_pos] at hih ⊢
    simp [hih]

/-- C5 counterexample: the empty line has length ≤ 4, yet the classifier
returns false for it, so "heading-like iff (length ≤ 4) or ..." fails at the
empty line. -/
theorem c5_counterexample :
    ([] : Str).length ≤ 4 ∧ looksLikeHeading [] = false := by decide

/-- C5 (amended): for every newline-free line, `_looks_like_heading` returns
true iff the line is NON-EMPTY and (its length is ≤ 4, or it is
all-uppercase with length ≤ 60, or it matches the Title-Case short-phrase
pattern with at most 8 words); and the collection loop after the Description
heading stops exactly at the first heading-like line, collecting exactly the
lines before it. -/
theorem c5_heading_classifier :
    (∀ line : Str, '\n' ∉ line →
      (looksLikeHeading line = true ↔
        (line ≠ [] ∧ (line.length ≤ 4 ∨
          (pyIsUpperStr line = true ∧ line.length ≤ 60) ∨
          (titleCaseShort line = true ∧ (pySplitWs line).length ≤ 8))))) ∧
    (∀ pre : List Str, ∀ l : Str, ∀ post : List Str,
      (∀ x ∈ pre, looksLikeHeading x = false) → looksLikeHeading l = true →
      collectBlock (pre ++ l :: post) = pre) := by
  constructor
  · intro line _
    unfold looksLikeHeading
    split
    · simp_all
    · split
      · simp_all
      · split
        · next h1 h2 h3 =>
          simp only [Bool.and_eq_true, decide_eq_true_eq] at h3
          simp_all
        · split
          · next h1 h2 h3 h4 =>
            simp only [Bool.and_eq_true, decide_eq_true_eq] at h4
            simp_all
          · next h1 h2 h3 h4 =>
            simp only [Bool.and_eq_true, decide_eq_true_eq, not_and] at h3 h4
            constructor
            · intro hc; cases hc
            · rintro ⟨hne, hc | ⟨hu, hlen⟩ | ⟨ht, hw⟩⟩
              · exact absurd hc h2
              · exact absurd hlen (by simpa [hu] using h3)
              · exact absurd hw (by simpa [ht] using h4)
  · exact collectBlock_stops_aux

/-- C5 witness: the amended classifier equivalence and the stopping property
evaluated at concrete inputs. -/
theorem c5_witness :
    ((looksLikeHeading (lstr "INTRODUCTION") = true ↔
      (lstr "INTRODUCTION" ≠ [] ∧ ((lstr "INTRODUCTION").length ≤ 4 ∨
        (pyIsUpperStr (lstr "INTRODUCTION") = true ∧ (lstr "INTRODUCTION").length ≤ 60) ∨
        (titleCaseShort (lstr "INTRODUCTION") = true ∧
          (pySplitWs (lstr "INTRODUCTION")).length ≤ 8)))) ∧
    collectBlock [lstr "alpha beta gamma delta epsilon", lstr "HEAD", lstr "ignored tail"] =
      [lstr "alpha beta gamma delta epsilon"]) := by
  constructor
  · exact c5_heading_classifier.1 (lstr "INTRODUCTION") (by decide)
  · exact c5_heading_classifier.2 [lstr "alpha beta gamma delta epsilon"] (lstr "HEAD")
      [lstr "ignored tail"] (by decide) (by decide)

theorem pickBestStep_mono (b c : Str) :
    (pyStrip b).length ≤ (pyStrip (pickBestStep b c)).length := by
  unfold pickBestStep
  split
  · next h =>
    simp only [Bool.and_eq_true, decide_eq_true_eq] at h
    omega
  · exact le_refl _

theorem pickBest_foldl_mono (l : List Str) :
    ∀ b : Str, (pyStrip b).length ≤ (pyStrip (l.foldl pickBestStep b)).length := by
  induction l with
  | nil => intro b; simp
  | cons c rest ih =>
    intro b
    exact le_trans (pickBestStep_mono b c) (ih _)

theorem pickBest_foldl_bound (l : List Str) :
    ∀ b : Str, ∀ c ∈ l, c = [] ∨
      (pyStrip c).length ≤ (pyStrip (l.foldl pickBestStep b)).length := by
  induction l with
  | nil => intro b c hc; cases hc
  | cons x rest ih =>
    intro b c hc
    rcases List.mem_cons.mp hc with rfl | hmem
    · by_cases hx : c = []
      · exact Or.inl hx
      · refine Or.inr ?_
        have hstep : (pyStrip c).length ≤ (pyStrip (pickBestStep b c)).length := by
          unfold pickBestStep
          split
          · exact le_refl _
          · next h =>
            simp only [Bool.and_eq_true, decide_eq_true_eq, not_and, ne_eq] at h
            have := h hx
            omega
        exact le_trans hstep (pickBest_foldl_mono rest _)
    · exact ih _ c hmem

/-- C2: the OCR fallback runs only when every text-only backend result is
empty or under the 40-character bar (or, as the claim also allows, the best
text is shorter than the OCR text); and the OCR output supersedes the prior
best text only when its raw character length strictly exceeds the prior
best's raw length. -/
theorem c2_ocr_policy (env : PdfEnv) :
    (ocrRun env = true →
      ((∀ t ∈ (watcherTexts env).map Prod.snd, (pyStrip t).length < 40) ∨
        (bestBefore env).length < (pyStrip (ocrText env)).length)) ∧
    (ocrAccepted env = true → (bestBefore env).length < (ocrText env).length) := by
  constructor
  · intro h
    left
    intro t ht
    have hneed : ocrNeeded env = true := by
      unfold ocrRun at h
      simp only [Bool.and_eq_true] at h
      exact h.1.1
    have hbest : bestBefore env = ((watcherTexts env).map Prod.snd).foldl pickBestStep [] := rfl
    have hbound := pickBest_foldl_bound ((watcherTexts env).map Prod.snd) [] t ht
    unfold ocrNeeded at hneed
    simp only [Bool.or_eq_true, decide_eq_true_eq] at hneed
    rcases hbound with rfl | hle
    · simp [pyStrip]
    · rcases hneed with hb | hlt
      · have h0 : (pyStrip ([] : Str)).length = 0 := rfl
        rw [hb] at hbest
        rw [← hbest, h0] at hle
        omega
      · rw [← hbest] at hle
        omega
  · intro h
    unfold ocrAccepted at h
    simp only [Bool.and_eq_true, decide_eq_true_eq] at h
    have := pyStrip_length_le (ocrText env)
    omega

/-- C2 witness: a run in which OCR is invoked (all textual results short)
and its output supersedes the best text, with both conclusions realized. -/
theorem c2_witness :
    ((∀ t ∈ (watcherTexts c2Env).map Prod.snd, (pyStrip t).length < 40) ∨
      (bestBefore c2Env).length < (pyStrip (ocrText c2Env)).length) ∧
    (bestBefore c2Env).length < (ocrText c2Env).length :=
  ⟨(c2_ocr_policy c2Env).1 (by decide), (c2_ocr_policy c2Env).2 (by decide)⟩

/-- C3: when every extraction backend fails or is unavailable and OCR cannot
produce text either, `get_description_from_pdf` returns a failure whose
details text is the guidance message, which mentions each failing or missing
provider by name with its reason and carries remediation hints. -/
theorem c3_exhaustion_details (env : PdfEnv) (path : Str)
    (hpath : pyStrip path ≠ []) (hok : env.pathOk = true)
    (h1 : env.pypdf2.isGot = false) (h2 : env.plumber.isGot = false)
    (h3 : env.fitz.isGot = false)
    (h4 : (env.tessAvail && fitzModuleAvail env) = false ∨ env.ocr.isErr = true) :
    getDescriptionFromPdf env path =
      { success := false,
        error := some (lstr "No suitable description text found in the PDF."),
        details := some (buildGuidance (watcherErrs env)) } ∧
    (∀ e, env.pypdf2 = .failed e →
      ContainsS (buildGuidance (watcherErrs env)) (lstr "PyPDF2 failed: " ++ e)) ∧
    (∀ e, env.plumber = .failed e →
      ContainsS (buildGuidance (watcherErrs env)) (lstr "pdfplumber failed: " ++ e)) ∧
    (env.plumber = .unavail →
      ContainsS (buildGuidance (watcherErrs env)) (lstr "pdfplumber not installed.")) ∧
    (∀ e, env.fitz = .failed e →
      ContainsS (buildGuidance (watcherErrs env)) (lstr "PyMuPDF failed: " ++ e)) ∧
    (env.fitz = .unavail →
      ContainsS (buildGuidance (watcherErrs env)) (lstr "PyMuPDF (fitz) not installed.")) ∧
    (∀ e, env.ocr = .err e → env.tessAvail = true → fitzModuleAvail env = true →
      ContainsS (buildGuidance (watcherErrs env)) (lstr "OCR fallback failed: " ++ e)) ∧
    (env.tessAvail = false →
      ContainsS (buildGuidance (watcherErrs env)) (lstr "OCR not available: pytesseract not installed.")) ∧
    (fitzModuleAvail env = false →
      ContainsS (buildGuidance (watcherErrs env)) (lstr "OCR requires PyMuPDF (fitz) to rasterize pages to images.")) ∧
    ContainsS (buildGuidance (watcherErrs env)) (lstr "How to proceed:") ∧
    ContainsS (buildGuidance (watcherErrs env)) (lstr "tesseract-ocr") := by
  have hp0 : path ≠ [] := by
    intro h
    exact hpath (by rw [h]; rfl)
  have htexts : watcherTexts env = [] := by
    unfold watcherTexts
    cases hp : env.pypdf2 <;> cases hq : env.plumber <;> cases hr : env.fitz <;>
      simp_all [Attempt.isGot]
  have hbest : bestBefore env = [] := by
    unfold bestBefore pickBestText
    rw [htexts]
    rfl
  have hneed : ocrNeeded env = true := by
    unfold ocrNeeded
    rw [hbest]
    simp
  have hacc : ocrAccepted env = false := by
    rcases h4 with h | h
    · have hrun : ocrRun env = false := by
        unfold ocrRun
        cases ht : env.tessAvail <;> cases hf : fitzModuleAvail env <;> simp_all
      simp [ocrAccepted, hrun]
    · have hot : ocrText env = [] := by
        unfold ocrText
        cases ho : env.ocr <;> simp_all [CallRes.isErr]
      simp [ocrAccepted, hot]
  have hfinal : finalBest env = [] := by
    simp [finalBest, hacc, hbest]
  refine ⟨?_, ?_, ?_, ?_, ?_, ?_, ?_, ?_, ?_,
    (buildGuidance_hints _).1, (buildGuidance_hints _).2⟩
  · simp [getDescriptionFromPdf, hp0, hpath, hok, hfinal, normalizeWhitespace,
      findDescriptionBlock]
  · intro e he
    apply mem_buildGuidance
    simp [watcherErrs, watcherErrs0, he]
  · intro e he
    apply mem_buildGuidance
    simp [watcherErrs, watcherErrs0, he]
  · intro he
    apply mem_buildGuidance
    simp [watcherErrs, watcherErrs0, he]
  · intro e he
    apply mem_buildGuidance
    simp [watcherErrs, watcherErrs0, he]
  · intro he
    apply mem_buildGuidance
    simp [watcherErrs, watcherErrs0, he]
  · intro e he hts hfa
    apply mem_buildGuidance
    simp [watcherErrs, watcherErrs0, he, hts, hfa, hneed]
  · intro hts
    apply mem_buildGuidance
    simp [watcherErrs, watcherErrs0, hts, hneed]
  · intro hfa
    apply mem_buildGuidance
    cases ht : env.tessAvail <;> simp [watcherErrs, watcherErrs0, hfa, ht, hneed]

/-- C3 witness: at a concrete exhausted environment, the details text
mentions the PyPDF2 failure reason verbatim. -/
theorem c3_witness :
    ContainsS (buildGuidance (watcherErrs c3Env)) (lstr "PyPDF2 failed: " ++ lstr "bad xref table") :=
  (c3_exhaustion_details c3Env (lstr "f.pdf") (by decide) (by decide) (by decide)
    (by decide) (by decide) (Or.inl (by decide))).2.1 (lstr "bad xref table") (by decide)

theorem imgStageFallback_invariant (env : ImgEnv) (d out : Str)
    (a e p : List Str) (fs : SizeFs) :
    ((imgStageFallback env d out a e p fs).result.success = true →
      ∃ q, (imgStageFallback env d out a e p fs).result.image_path = some q ∧ q ≠ []) ∧
    ((imgStageFallback env d out a e p fs).result.success = false →
      (imgStageFallback env d out a e p fs).result.error ≠ none) := by
  unfold imgStageFallback
  split
  · simp [imgFail]
  · split
    · simp [imgFail]
    · dsimp only
      split
      · simp [imgFail]
      · next hex =>
        simp only [Bool.not_eq_true'] at hex
        rw [Bool.not_eq_false] at hex
        simp only [pyExists, Bool.and_eq_true, ne_eq, decide_eq_true_eq] at hex
        simp [imgOk]
        exact hex.1

theorem imgStageOpenai_invariant (env : ImgEnv) (d out : Str)
    (a e p : List Str) (fs : SizeFs) :
    ((imgStageOpenai env d out a e p fs).result.success = true →
      ∃ q, (imgStageOpenai env d out a e p fs).result.image_path = some q ∧ q ≠ []) ∧
    ((imgStageOpenai env d out a e p fs).result.success = false →
      (imgStageOpenai env d out a e p fs).result.error ≠ none) := by
  unfold imgStageOpenai
  split
  · split
    · next hok =>
      unfold openaiOkFrom at hok
      constructor
      · intro _
        refine ⟨out, rfl, ?_⟩
        split at hok
        · cases hok
        · simp only [pyExists, Bool.and_eq_true, ne_eq, decide_eq_true_eq] at hok
          exact hok.1.1
      · intro h
        cases h
    · exact imgStageFallback_invariant env d out _ _ _ _
  · exact imgStageFallback_invariant env d out _ _ _ _

theorem img_invariant (env : ImgEnv) (d out : Str) :
    ((generateImageFromDescription env d out).result.success = true →
      ∃ q, (generateImageFromDescription env d out).result.image_path = some q ∧ q ≠ []) ∧
    ((generateImageFromDescription env d out).result.success = false →
      (generateImageFromDescription env d out).result.error ≠ none) := by
  unfold generateImageFromDescription
  split
  · simp [imgFail]
  · split
    · split
      · next hok =>
        unfold replicateOk at hok
        simp only [Bool.and_eq_true] at hok
        constructor
        · intro _
          refine ⟨out, rfl, ?_⟩
          rcases hok with ⟨_, hok2⟩
          split at hok2
          · cases hok2
          · simp only [pyExists, Bool.and_eq_true, ne_eq, decide_eq_true_eq] at hok2
            exact hok2.1.1
        · intro h
          cases h
      · exact imgStageOpenai_invariant env _ out _ _ _ _
    · exact imgStageOpenai_invariant env _ out _ _ _ _

theorem watcher_invariant (env : PdfEnv) (path : Str) :
    ((getDescriptionFromPdf env path).success = true →
      ∃ d, (getDescriptionFromPdf env path).description = some d ∧ d ≠ []) ∧
    ((getDescriptionFromPdf env path).success = false →
      (getDescriptionFromPdf env path).error ≠ none) := by
  unfold getDescriptionFromPdf
  split
  · simp
  · split
    · simp
    · split
      · dsimp only
        split
        · simp
        · next hne =>
          simp
          exact hne
      · dsimp only
        split
        · simp
        · next hne =>
          simp
          exact hne

theorem dl_invariant (env : DlEnv) (url : Str) (v : Bool) (ht : env.tempPath ≠ []) :
    ((downloadPdfToTemp env url v).1.success = true →
      ∃ q, (downloadPdfToTemp env url v).1.file_path = some q ∧ q ≠ []) ∧
    ((downloadPdfToTemp env url v).1.success = false →
      (downloadPdfToTemp env url v).1.error ≠ none) := by
  unfold downloadPdfToTemp
  repeat' (first | split | (dsimp only; split))
  all_goals simp_all [dlFail]

/-- C7: for each public operation, a success result carries a non-empty
payload (description / image path / file path) and a failure result carries
an error message. -/
theorem c7_result_invariants :
    (∀ (env : PdfEnv) (path : Str),
      ((getDescriptionFromPdf env path).success = true →
        ∃ d, (getDescriptionFromPdf env path).description = some d ∧ d ≠ []) ∧
      ((getDescriptionFromPdf env path).success = false →
        (getDescriptionFromPdf env path).error ≠ none)) ∧
    (∀ (env : ImgEnv) (d out : Str),
      ((generateImageFromDescription env d out).result.success = true →
        ∃ q, (generateImageFromDescription env d out).result.image_path = some q ∧ q ≠ []) ∧
      ((generateImageFromDescription env d out).result.success = false →
        (generateImageFromDescription env d out).result.error ≠ none)) ∧
    (∀ (env : DlEnv) (url : Str) (v : Bool), env.tempPath ≠ [] →
      ((downloadPdfToTemp env url v).1.success = true →
        ∃ q, (downloadPdfToTemp env url v).1.file_path = some q ∧ q ≠ []) ∧
      ((downloadPdfToTemp env url v).1.success = false →
        (downloadPdfToTemp env url v).1.error ≠ none)) :=
  ⟨watcher_invariant, img_invariant, dl_invariant⟩

/-- C7 witness: the invariants realized at concrete successful and failing
runs of the three operations. -/
theorem c7_witness :
    (∃ d, (getDescriptionFromPdf c7PdfEnv (lstr "f.pdf")).description = some d ∧ d ≠ []) ∧
    ((generateImageFromDescription c7ImgEnvFail (lstr "hi") (lstr "o.png")).result.error ≠ none) ∧
    (∃ q, (downloadPdfToTemp c9Env (lstr "https://x/y.pdf") true).1.file_path = some q ∧ q ≠ []) :=
  ⟨(c7_result_invariants.1 c7PdfEnv (lstr "f.pdf")).1 (by decide),
   (c7_result_invariants.2.1 c7ImgEnvFail (lstr "hi") (lstr "o.png")).2 (by decide),
   (c7_result_invariants.2.2 c9Env (lstr "https://x/y.pdf") true (by decide)).1 (by decide)⟩

/-- C9: on every failure of `download_pdf_to_temp` no temporary file remains
(the temp path is still absent afterwards); on success the temporary file
persists and `file_path` points to it. -/
theorem c9_download_cleanup (env : DlEnv) (url : Str) (v : Bool)
    (hfresh : env.initFs env.tempPath = none) :
    ((downloadPdfToTemp env url v).1.success = false →
      (downloadPdfToTemp env url v).2 env.tempPath = none) ∧
    ((downloadPdfToTemp env url v).1.success = true →
      (downloadPdfToTemp env url v).1.file_path = some env.tempPath ∧
        (downloadPdfToTemp env url v).2 env.tempPath ≠ none) := by
  unfold downloadPdfToTemp
  repeat' (first | split | (dsimp only; split))
  all_goals simp_all [dlFail, cfsUpdate]

/-- C9 witness: the cleanup and persistence conclusions at a failing
(non-PDF body) and a succeeding concrete download. -/
theorem c9_witness :
    ((downloadPdfToTemp c9EnvBad (lstr "http://x") true).2 c9EnvBad.tempPath = none) ∧
    ((downloadPdfToTemp c9Env (lstr "https://x/y.pdf") true).1.file_path = some c9Env.tempPath ∧
      (downloadPdfToTemp c9Env (lstr "https://x/y.pdf") true).2 c9Env.tempPath ≠ none) :=
  ⟨(c9_download_cleanup c9EnvBad (lstr "http://x") true rfl).1 (by decide),
   (c9_download_cleanup c9Env (lstr "https://x/y.pdf") true rfl).2 (by decide)⟩

theorem app_ext2 {α : Type} (p u : List α) : ∃ t, p ++ u = p ++ t := ⟨u, rfl⟩

theorem app_ext3 {α : Type} (p u v : List α) : ∃ t, p ++ u ++ v = p ++ t :=
  ⟨u ++ v, by simp⟩

theorem app_ext4 {α : Type} (p u v w : List α) : ∃ t, p ++ u ++ v ++ w = p ++ t :=
  ⟨u ++ (v ++ w), by simp⟩

theorem imgStageFallback_prints (env : ImgEnv) (d out : Str)
    (a e p : List Str) (fs : SizeFs) :
    ∃ t, (imgStageFallback env d out a e p fs).prints = p ++ t := by
  unfold imgStageFallback
  repeat' (first | split | (dsimp only; split))
  all_goals first
    | exact app_ext2 _ _
    | exact app_ext3 _ _ _
    | exact app_ext4 _ _ _ _

theorem imgStageOpenai_prints (env : ImgEnv) (d out : Str)
    (a e p : List Str) (fs : SizeFs) :
    ∃ t, (imgStageOpenai env d out a e p fs).prints = p ++ t := by
  unfold imgStageOpenai
  split
  · dsimp only
    split
    · exact app_ext2 _ _
    · obtain ⟨t, ht⟩ := imgStageFallback_prints env d out (a ++ [lstr "OpenAI"])
        (e ++ [oaFailMsg env])
        ((p ++ [lstr "[LyricistAgent] Attempting OpenAI Images generation..."]) ++
          [lstr "[LyricistAgent] OpenAI error."])
        (applyCall fs out env.openaiCall)
      rw [ht]
      exact app_ext4 _ _ _ _
  · obtain ⟨t, ht⟩ := imgStageFallback_prints env d out a e
      (p ++ [lstr "[LyricistAgent] Skipping OpenAI: OPENAI_API_KEY not set or empty."]) fs
    rw [ht]
    exact app_ext3 _ _ _

theorem img_prints_decomp (env : ImgEnv) (d out : Str) (hd : pyStrip d ≠ []) :
    ∃ rest, (generateImageFromDescription env d out).prints =
      [prCalled, prEnvRep env, prEnvOpenai env] ++ rest := by
  have hd0 : d ≠ [] := by
    intro h
    exact hd (by rw [h]; rfl)
  unfold generateImageFromDescription
  rw [if_neg (by simp [hd0, hd])]
  try dsimp only
  split
  · try dsimp only
    split
    · exact app_ext2 _ _
    · obtain ⟨t, ht⟩ := imgStageOpenai_prints env (pyStrip d) out [lstr "Replicate"]
        [repFailMsg env]
        (([prCalled, prEnvRep env, prEnvOpenai env] ++
          [lstr "[LyricistAgent] Attempting Replicate image generation..."]) ++
          [lstr "[LyricistAgent] Replicate error."])
        (fsAfterReplicate env out)
      rw [ht]
      exact app_ext4 _ _ _ _
  · obtain ⟨t, ht⟩ := imgStageOpenai_prints env (pyStrip d) out [] []
      ([prCalled, prEnvRep env, prEnvOpenai env] ++
        [lstr "[LyricistAgent] Skipping Replicate: REPLICATE_API_TOKEN not set."])
      env.initFs
    rw [ht]
    exact app_ext3 _ _ _

/-- C10: with a non-empty description, the clear-text value of
`OPENAI_API_KEY` is printed in the third stdout line, before any provider
attempt; consequently two runs identical except for the (set) key value
produce different stdout traces. -/
theorem c10_secret_leak :
    (∀ (env : ImgEnv) (d out : Str), pyStrip d ≠ [] →
      ∃ rest, (generateImageFromDescription env d out).prints =
        [prCalled, prEnvRep env, prEnvOpenai env] ++ rest ∧
        ContainsS (prEnvOpenai env) (pyShowOpt env.openaiKeyVar)) ∧
    (∀ (env1 env2 : ImgEnv) (d out : Str) (k1 k2 : Str), pyStrip d ≠ [] →
      env1.openaiKeyVar = some k1 → env2 = { env1 with openaiKeyVar := some k2 } →
      k1 ≠ k2 →
      (generateImageFromDescription env1 d out).prints ≠
        (generateImageFromDescription env2 d out).prints) := by
  constructor
  · intro env d out hd
    obtain ⟨rest, hr⟩ := img_prints_decomp env d out hd
    refine ⟨rest, hr, ?_⟩
    exact ⟨lstr "[LyricistAgent] Env check: OPENAI_API_KEY value: ",
      lstr " (note: printed for diagnostics as requested)",
      by simp [prEnvOpenai, List.append_assoc]⟩
  · intro env1 env2 d out k1 k2 hd h1 h2 hne heq
    obtain ⟨r1, e1⟩ := img_prints_decomp env1 d out hd
    obtain ⟨r2, e2⟩ := img_prints_decomp env2 d out hd
    rw [e1, e2] at heq
    simp only [List.cons_append, List.nil_append, List.cons.injEq] at heq
    have h3 : prEnvOpenai env1 = prEnvOpenai env2 := heq.2.2.1
    unfold prEnvOpenai at h3
    rw [h1, h2] at h3
    simp only [pyShowOpt] at h3
    have h4 := List.append_cancel_right h3
    have h5 := List.append_cancel_left h4
    exact hne h5

/-- C10 witness: the leak and the trace difference at a concrete key. -/
theorem c10_witness :
    (∃ rest, (generateImageFromDescription c10Env (lstr "hi") (lstr "o.png")).prints =
      [prCalled, prEnvRep c10Env, prEnvOpenai c10Env] ++ rest ∧
      ContainsS (prEnvOpenai c10Env) (pyShowOpt c10Env.openaiKeyVar)) ∧
    (generateImageFromDescription c10Env (lstr "hi") (lstr "o.png")).prints ≠
      (generateImageFromDescription { c10Env with openaiKeyVar := some (lstr "sk-other") }
        (lstr "hi") (lstr "o.png")).prints :=
  ⟨c10_secret_leak.1 c10Env (lstr "hi") (lstr "o.png") (by decide),
   c10_secret_leak.2 c10Env { c10Env with openaiKeyVar := some (lstr "sk-other") }
     (lstr "hi") (lstr "o.png") (lstr "sk-secret-key-1") (lstr "sk-other")
     (by decide) rfl rfl (by decide)⟩

theorem imgStageFallback_spec (env : ImgEnv) (d out : Str)
    (a e p : List Str) (fs : SizeFs) :
    (imgStageFallback env d out a e p fs).attempted = a ∧
    (imgStageFallback env d out a e p fs).apiErrors = e ∧
    ((imgStageFallback env d out a e p fs).result.success = true ↔
      (env.pillowAvail &&
        (match env.renderCall with
         | .raises _ => false
         | .returns w => pyExists (applyCall fs out (.returns w)) out)) = true) ∧
    ((imgStageFallback env d out a e p fs).result.success = true →
      (imgStageFallback env d out a e p fs).provider = some .localRender) := by
  unfold imgStageFallback
  repeat' (first | split | (dsimp only; split))
  all_goals simp_all [imgFail, imgOk]

theorem imgStageOpenai_spec (env : ImgEnv) (d out : Str)
    (a e p : List Str) (fs : SizeFs) :
    (imgStageOpenai env d out a e p fs).attempted =
      a ++ (if openaiTried env then [lstr "OpenAI"] else []) ∧
    (imgStageOpenai env d out a e p fs).apiErrors =
      e ++ (if openaiTried env && !openaiOkFrom env fs out then [oaFailMsg env] else []) ∧
    ((openaiTried env && openaiOkFrom env fs out) = false →
      (((imgStageOpenai env d out a e p fs).result.success = true) ↔
        (env.pillowAvail &&
          (match env.renderCall with
           | .raises _ => false
           | .returns w => pyExists (applyCall
               (if openaiTried env then applyCall fs out env.openaiCall else fs) out
               (.returns w)) out)) = true) ∧
      ((imgStageOpenai env d out a e p fs).result.success = true →
        (imgStageOpenai env d out a e p fs).provider = some .localRender)) := by
  unfold imgStageOpenai
  split
  · next htr =>
    dsimp only
    split
    · next hok =>
      refine ⟨?_, ?_, ?_⟩
      · simp [htr]
      · simp [htr, hok]
      · intro hno
        rw [htr, hok] at hno
        simp at hno
    · next hok =>
      have hok' : openaiOkFrom env fs out = false := by simpa using hok
      obtain ⟨ha, he, hs, hp⟩ := imgStageFallback_spec env d out (a ++ [lstr "OpenAI"])
        (e ++ [oaFailMsg env])
        (p ++ [lstr "[LyricistAgent] Attempting OpenAI Images generation...",
          lstr "[LyricistAgent] OpenAI error."])
        (applyCall fs out env.openaiCall)
      refine ⟨?_, ?_, ?_⟩
      · simp [ha, htr]
      · simp [he, htr, hok']
      · intro hno
        constructor
        · simp only [List.append_assoc, List.singleton_append, List.cons_append, List.nil_append]
          rw [hs]
        · simp only [List.append_assoc, List.singleton_append, List.cons_append, List.nil_append]
          exact hp
  · next htr =>
    have htr' : openaiTried env = false := by simpa using htr
    obtain ⟨ha, he, hs, hp⟩ := imgStageFallback_spec env d out a e
      (p ++ [lstr "[LyricistAgent] Skipping OpenAI: OPENAI_API_KEY not set or empty."]) fs
    refine ⟨?_, ?_, ?_⟩
    · simp [ha, htr']
    · simp [he, htr']
    · intro hno
      constructor
      · rw [hs]
      · exact hp

/-- C1 counterexample: with a whitespace-only `REPLICATE_API_TOKEN` (a
non-empty credential) and Pillow unavailable, Replicate is not attempted and
the call fails — so neither "attempted iff the credential is non-empty" nor
"the local renderer is a guaranteed-success terminal fallback" holds as
stated. -/
theorem c1_counterexample :
    c1Env.replicateToken ≠ [] ∧
    (generateImageFromDescription c1Env (lstr "hello") (lstr "out.png")).attempted = [] ∧
    (generateImageFromDescription c1Env (lstr "hello") (lstr "out.png")).result.success = false := by
  decide

/-- C1 (amended): with a non-empty description, Replicate is attempted iff
its token is non-blank (non-empty after stripping), then OpenAI iff its key
is non-blank and Replicate did not succeed; skipped providers record no
api-error (both absent ⇒ no api errors); and when both remote providers fail
or are skipped the call succeeds iff the Pillow renderer is available,
returns, and leaves the output file existing — in which case the provider is
the local renderer. -/
theorem c1_provider_chain (env : ImgEnv) (d out : Str) (hd : pyStrip d ≠ []) :
    (generateImageFromDescription env d out).attempted =
      (if replicateTried env then [lstr "Replicate"] else []) ++
        (if !replicateOk env out && openaiTried env then [lstr "OpenAI"] else []) ∧
    (replicateTried env = false ∧ openaiTried env = false →
      (generateImageFromDescription env d out).apiErrors = []) ∧
    (replicateOk env out = false → openaiOk2 env out = false →
      (((generateImageFromDescription env d out).result.success = true) ↔
        localAccept env out = true) ∧
      ((generateImageFromDescription env d out).result.success = true →
        (generateImageFromDescription env d out).provider =
          some ImgProvider.localRender)) := by
  have hd0 : d ≠ [] := fun h => hd (by rw [h]; rfl)
  unfold generateImageFromDescription
  rw [if_neg (by simp [hd0, hd])]
  try dsimp only
  split
  · next htr =>
    try dsimp only
    split
    · next hok =>
      refine ⟨by simp [htr, hok], by simp_all, by simp_all⟩
    · next hok =>
      have hokf : replicateOk env out = false := by simpa using hok
      obtain ⟨ha, he, hrest⟩ := imgStageOpenai_spec env (pyStrip d) out [lstr "Replicate"]
        [repFailMsg env]
        [prCalled, prEnvRep env, prEnvOpenai env,
          lstr "[LyricistAgent] Attempting Replicate image generation...",
          lstr "[LyricistAgent] Replicate error."]
        (fsAfterReplicate env out)
      refine ⟨?_, ?_, ?_⟩
      · simp only [List.append_assoc, List.singleton_append, List.cons_append, List.nil_append]
        simp [ha, htr, hokf]
      · simp_all
      · intro _ h2
        have h2' : (openaiTried env && openaiOkFrom env (fsAfterReplicate env out) out) = false := by
          unfold openaiOk2 imgFsBeforeOpenai at h2
          rw [htr] at h2
          simpa using h2
        obtain ⟨hs, hp⟩ := hrest h2'
        constructor
        · simp only [List.append_assoc, List.singleton_append, List.cons_append, List.nil_append]
          rw [hs]
          simp [localAccept, imgFsBeforeFallback, imgFsBeforeOpenai, htr]
        · simp only [List.append_assoc, List.singleton_append, List.cons_append, List.nil_append]
          exact hp
  · next htr =>
    have htrf : replicateTried env = false := by simpa using htr
    have hokf : replicateOk env out = false := by simp [replicateOk, htrf]
    obtain ⟨ha, he, hrest⟩ := imgStageOpenai_spec env (pyStrip d) out [] []
      [prCalled, prEnvRep env, prEnvOpenai env,
        lstr "[LyricistAgent] Skipping Replicate: REPLICATE_API_TOKEN not set."]
      env.initFs
    refine ⟨?_, ?_, ?_⟩
    · simp only [List.append_assoc, List.singleton_append, List.cons_append, List.nil_append]
      simp [ha, htrf, hokf]
    · rintro ⟨_, hopen⟩
      simp only [List.append_assoc, List.singleton_append, List.cons_append, List.nil_append]
      simp [he, hopen]
    · intro _ h2
      have h2' : (openaiTried env && openaiOkFrom env env.initFs out) = false := by
        unfold openaiOk2 imgFsBeforeOpenai at h2
        rw [htrf] at h2
        simpa using h2
      obtain ⟨hs, hp⟩ := hrest h2'
      constructor
      · simp only [List.append_assoc, List.singleton_append, List.cons_append, List.nil_append]
        rw [hs]
        simp [localAccept, imgFsBeforeFallback, imgFsBeforeOpenai, htrf]
      · simp only [List.append_assoc, List.singleton_append, List.cons_append, List.nil_append]
        exact hp

/-- C1 witness: the amended chain description evaluated at an environment in
which Replicate is configured but fails and the local renderer succeeds. -/
theorem c1_witness :
    (generateImageFromDescription c1WEnv (lstr "hi") (lstr "o.png")).attempted =
      (if replicateTried c1WEnv then [lstr "Replicate"] else []) ++
        (if !replicateOk c1WEnv (lstr "o.png") && openaiTried c1WEnv then [lstr "OpenAI"] else []) ∧
    (((generateImageFromDescription c1WEnv (lstr "hi") (lstr "o.png")).result.success = true) ↔
      localAccept c1WEnv (lstr "o.png") = true) :=
  ⟨(c1_provider_chain c1WEnv (lstr "hi") (lstr "o.png") (by decide)).1,
   ((c1_provider_chain c1WEnv (lstr "hi") (lstr "o.png") (by decide)).2.2
     (by decide) (by decide)).1⟩

theorem imgStageFallback_provider (env : ImgEnv) (d out : Str)
    (a e p : List Str) (fs : SizeFs) :
    ((imgStageFallback env d out a e p fs).provider = some ImgProvider.replicate → False) ∧
    ((imgStageFallback env d out a e p fs).provider = some ImgProvider.openai → False) ∧
    ((imgStageFallback env d out a e p fs).provider = some ImgProvider.localRender →
      pyExists (imgStageFallback env d out a e p fs).fs out = true) ∧
    ((imgStageFallback env d out a e p fs).result.success = true →
      (imgStageFallback env d out a e p fs).provider ≠ none) := by
  unfold imgStageFallback
  repeat' (first | split | (dsimp only; split))
  all_goals simp_all [imgFail, imgOk]

theorem imgStageOpenai_provider (env : ImgEnv) (d out : Str)
    (a e p : List Str) (fs : SizeFs) :
    ((imgStageOpenai env d out a e p fs).provider = some ImgProvider.replicate → False) ∧
    ((imgStageOpenai env d out a e p fs).provider = some ImgProvider.openai →
      pyExists (imgStageOpenai env d out a e p fs).fs out = true ∧
        0 < pyGetSize (imgStageOpenai env d out a e p fs).fs out) ∧
    ((imgStageOpenai env d out a e p fs).provider = some ImgProvider.localRender →
      pyExists (imgStageOpenai env d out a e p fs).fs out = true) ∧
    ((imgStageOpenai env d out a e p fs).result.success = true →
      (imgStageOpenai env d out a e p fs).provider ≠ none) := by
  unfold imgStageOpenai
  split
  · dsimp only
    split
    · next hok =>
      have hex : pyExists (applyCall fs out env.openaiCall) out = true ∧
          0 < pyGetSize (applyCall fs out env.openaiCall) out := by
        unfold openaiOkFrom at hok
        split at hok
        · cases hok
        · simp only [Bool.and_eq_true, decide_eq_true_eq] at hok
          exact ⟨hok.1, hok.2⟩
      refine ⟨?_, fun _ => hex, ?_, ?_⟩ <;> simp
    · obtain ⟨f1, f2, f3, f4⟩ := imgStageFallback_provider env d out (a ++ [lstr "OpenAI"])
        (e ++ [oaFailMsg env])
        ((p ++ [lstr "[LyricistAgent] Attempting OpenAI Images generation..."]) ++
          [lstr "[LyricistAgent] OpenAI error."])
        (applyCall fs out env.openaiCall)
      exact ⟨f1, fun h => (f2 h).elim, f3, f4⟩
  · obtain ⟨f1, f2, f3, f4⟩ := imgStageFallback_provider env d out a e
      (p ++ [lstr "[LyricistAgent] Skipping OpenAI: OPENAI_API_KEY not set or empty."]) fs
    exact ⟨f1, fun h => (f2 h).elim, f3, f4⟩

/-- C8 counterexample: with no remote credentials and a renderer that writes
an empty file, the call succeeds while the output file has size 0 — the
"file exists and size > 0" acceptance predicate is not applied to the local
fallback renderer. -/
theorem c8_counterexample :
    (generateImageFromDescription c8Env (lstr "hello") (lstr "out.png")).result.success = true ∧
    pyGetSize (generateImageFromDescription c8Env (lstr "hello") (lstr "out.png")).fs
      (lstr "out.png") = 0 := by
  decide

/-- C8 (amended): the "file exists and size > 0" acceptance predicate guards
the two remote providers; the local fallback renderer is accepted on file
existence alone; and every success comes from one of the three providers. -/
theorem c8_acceptance (env : ImgEnv) (d out : Str) :
    ((generateImageFromDescription env d out).provider = some ImgProvider.replicate →
      pyExists (generateImageFromDescription env d out).fs out = true ∧
        0 < pyGetSize (generateImageFromDescription env d out).fs out) ∧
    ((generateImageFromDescription env d out).provider = some ImgProvider.openai →
      pyExists (generateImageFromDescription env d out).fs out = true ∧
        0 < pyGetSize (generateImageFromDescription env d out).fs out) ∧
    ((generateImageFromDescription env d out).provider = some ImgProvider.localRender →
      pyExists (generateImageFromDescription env d out).fs out = true) ∧
    ((generateImageFromDescription env d out).result.success = true →
      (generateImageFromDescription env d out).provider ≠ none) := by
  unfold generateImageFromDescription
  split
  · simp [imgFail]
  · try dsimp only
    split
    · try dsimp only
      split
      · next hok =>
        have hex : pyExists (fsAfterReplicate env out) out = true ∧
            0 < pyGetSize (fsAfterReplicate env out) out := by
          unfold replicateOk at hok
          simp only [Bool.and_eq_true] at hok
          rcases hok with ⟨-, hok2⟩
          split at hok2
          · cases hok2
          · simp only [Bool.and_eq_true, decide_eq_true_eq] at hok2
            exact ⟨hok2.1, hok2.2⟩
        refine ⟨fun _ => hex, ?_, ?_, ?_⟩ <;> simp
      · obtain ⟨f1, f2, f3, f4⟩ := imgStageOpenai_provider env (pyStrip d) out
          [lstr "Replicate"] [repFailMsg env]
          (([prCalled, prEnvRep env, prEnvOpenai env] ++
            [lstr "[LyricistAgent] Attempting Replicate image generation..."]) ++
            [lstr "[LyricistAgent] Replicate error."])
          (fsAfterReplicate env out)
        exact ⟨fun h => (f1 h).elim, f2, f3, f4⟩
    · obtain ⟨f1, f2, f3, f4⟩ := imgStageOpenai_provider env (pyStrip d) out [] []
        ([prCalled, prEnvRep env, prEnvOpenai env] ++
          [lstr "[LyricistAgent] Skipping Replicate: REPLICATE_API_TOKEN not set."])
        env.initFs
      exact ⟨fun h => (f1 h).elim, f2, f3, f4⟩

/-- C8 witness: the remote-provider acceptance realized at a successful
Replicate run. -/
theorem c8_witness :
    pyExists (generateImageFromDescription c8WEnv (lstr "hi") (lstr "o.png")).fs
      (lstr "o.png") = true ∧
    0 < pyGetSize (generateImageFromDescription c8WEnv (lstr "hi") (lstr "o.png")).fs
      (lstr "o.png") :=
  (c8_acceptance c8WEnv (lstr "hi") (lstr "o.png")).1 (by decide)

theorem dropWhile_eq_self_head {p : Char → Bool} {l : Str}
    (h : ∀ c t, l = c :: t → p c = false) : l.dropWhile p = l := by
  cases l with
  | nil => rfl
  | cons c t =>
    rw [List.dropWhile_cons, if_neg]
    simp [h c t rfl]

theorem pyStrip_eq_self {l : Str}
    (h1 : ∀ c t, l = c :: t → pyIsSpace c = false)
    (h2 : ∀ c, l.getLast? = some c → pyIsSpace c = false) : pyStrip l = l := by
  unfold pyStrip
  rw [dropWhile_eq_self_head h1]
  have hrev : l.reverse.dropWhile pyIsSpace = l.reverse := by
    apply dropWhile_eq_self_head
    intro c t hct
    apply h2
    rw [← List.head?_reverse, hct]
    rfl
  rw [hrev, List.reverse_reverse]

theorem strip_self_head {l : Str} {c : Char} {t : Str}
    (hs : pyStrip l = l) (hl : l = c :: t) : pyIsSpace c = false := by
  by_contra h
  rw [Bool.not_eq_false] at h
  have h1 : (pyStrip l).length < l.length := by
    unfold pyStrip
    subst hl
    rw [List.dropWhile_cons, if_pos h]
    have e1 : (((t.dropWhile pyIsSpace).reverse.dropWhile pyIsSpace).reverse).length
        ≤ (t.dropWhile pyIsSpace).length := by
      rw [List.length_reverse]
      calc ((t.dropWhile pyIsSpace).reverse.dropWhile pyIsSpace).length
          ≤ (t.dropWhile pyIsSpace).reverse.length := length_dropWhile_le _ _
        _ = (t.dropWhile pyIsSpace).length := List.length_reverse _
    have e2 : (t.dropWhile pyIsSpace).length ≤ t.length := length_dropWhile_le _ _
    simp only [List.length_cons]
    omega
  rw [hs] at h1
  omega

theorem exists_dropWhile_append (p : Char → Bool) (l : Str) :
    ∃ s, l = s ++ l.dropWhile p := by
  induction l with
  | nil => exact ⟨[], rfl⟩
  | cons c t ih =>
    by_cases h : p c
    · obtain ⟨s, hs⟩ := ih
      exact ⟨c :: s, by rw [List.dropWhile_cons, if_pos h]; simpa using hs⟩
    · exact ⟨[], by rw [List.dropWhile_cons, if_neg h]; simp⟩

theorem strip_self_last {l : Str} {c : Char}
    (hs : pyStrip l = l) (hl : l.getLast? = some c) : pyIsSpace c = false := by
  by_contra h
  rw [Bool.not_eq_false] at h
  have hlne : l ≠ [] := by
    intro he
    rw [he] at hl
    cases hl
  set y := l.dropWhile pyIsSpace with hy
  have hyne : y ≠ [] := by
    intro hye
    have : pyStrip l = [] := by
      unfold pyStrip
      rw [← hy, hye]
      rfl
    rw [hs] at this
    exact hlne this
  obtain ⟨s, hsy⟩ := exists_dropWhile_append pyIsSpace l
  have hylast : y.getLast? = some c := by
    rw [hsy, ← hy] at hl
    rw [List.getLast?_append_of_ne_nil s hyne] at hl
    exact hl
  obtain ⟨d, t, hdt⟩ := List.exists_cons_of_ne_nil (by
    intro hne
    rw [List.reverse_eq_nil_iff] at hne
    exact hyne hne : y.reverse ≠ [])
  have hdc : d = c := by
    have h6 : y.reverse.head? = y.getLast? := List.head?_reverse y
    rw [hdt, hylast] at h6
    simpa using h6
  have hlt : (pyStrip l).length < l.length := by
    unfold pyStrip
    rw [← hy]
    have hstep : (y.reverse.dropWhile pyIsSpace).length < y.reverse.length := by
      rw [hdt, List.dropWhile_cons, if_pos (hdc ▸ h)]
      have := length_dropWhile_le pyIsSpace t
      simp only [List.length_cons]
      omega
    have hylen : y.length ≤ l.length := by
      rw [hy]
      exact length_dropWhile_le _ _
    rw [List.length_reverse]
    rw [List.length_reverse] at hstep
    omega
  rw [hs] at hlt
  omega

theorem joinWith_ne_nil {sep : Str} {ls : List Str} {x : Str}
    (hx : x ∈ ls) (hne : x ≠ []) : joinWith sep ls ≠ [] := by
  induction ls with
  | nil => cases hx
  | cons a rest ih =>
    cases rest with
    | nil =>
      rcases List.mem_singleton.mp hx with rfl
      simpa [joinWith] using hne
    | cons b t =>
      rw [joinWith]
      rcases List.mem_cons.mp hx with rfl | hmem
      · simp [hne]
      · intro he
        simp only [List.append_assoc, List.append_eq_nil] at he
        exact ih hmem he.2.2

theorem joinWith_head? {sep : Str} {x : Str} (ls : List Str) (hx : x ≠ []) :
    (joinWith sep (x :: ls)).head? = x.head? := by
  cases ls with
  | nil => rfl
  | cons b t =>
    rw [joinWith]
    cases x with
    | nil => exact absurd rfl hx
    | cons c cs => simp

theorem joinWith_getLast? {sep : Str} {x : Str} (ls : List Str) (hx : x ≠ []) :
    (joinWith sep (ls ++ [x])).getLast? = x.getLast? := by
  induction ls with
  | nil => rfl
  | cons a rest ih =>
    cases rest with
    | nil =>
      show (joinWith sep [a, x]).getLast? = x.getLast?
      rw [joinWith]
      exact List.getLast?_append_of_ne_nil _ hx
    | cons b t =>
      have hne' : joinWith sep (b :: (t ++ [x])) ≠ [] := by
        have hmem : x ∈ b :: (t ++ [x]) := by simp
        exact joinWith_ne_nil hmem hx
      have hstep : joinWith sep ((a :: b :: t) ++ [x]) =
          (a ++ sep) ++ joinWith sep (b :: (t ++ [x])) := by
        simp [joinWith, List.append_assoc]
      rw [hstep, List.getLast?_append_of_ne_nil _ hne']
      exact ih

theorem splitOnChar_no_sep {sep : Char} {l : Str} (h : sep ∉ l) :
    splitOnChar sep l = [l] := by
  induction l with
  | nil => rfl
  | cons c t ih =>
    have hc : c ≠ sep := by
      intro rfl'
      exact h (by simp [rfl'])
    have ht : sep ∉ t := fun hm => h (List.mem_cons_of_mem _ hm)
    rw [splitOnChar, if_neg hc, ih ht]

theorem splitOnChar_append_cons {sep : Char} {x r : Str} (h : sep ∉ x) :
    splitOnChar sep (x ++ sep :: r) = x :: splitOnChar sep r := by
  induction x with
  | nil => simp [splitOnChar]
  | cons c t ih =>
    have hc : c ≠ sep := by
      intro rfl'
      exact h (by simp [rfl'])
    have ht : sep ∉ t := fun hm => h (List.mem_cons_of_mem _ hm)
    rw [List.cons_append, splitOnChar, if_neg hc, ih ht]

theorem splitOnChar_joinWith {sep : Char} {ls : List Str}
    (h : ∀ l ∈ ls, sep ∉ l) (hne : ls ≠ []) :
    splitOnChar sep (joinWith [sep] ls) = ls := by
  induction ls with
  | nil => exact absurd rfl hne
  | cons a rest ih =>
    cases rest with
    | nil => exact splitOnChar_no_sep (h a (by simp))
    | cons b t =>
      rw [joinWith]
      have ha : sep ∉ a := h a (by simp)
      have hrest : ∀ l ∈ b :: t, sep ∉ l := fun l hl => h l (by simp [hl])
      rw [show a ++ [sep] ++ joinWith [sep] (b :: t) =
        a ++ sep :: joinWith [sep] (b :: t) by simp]
      rw [splitOnChar_append_cons ha]
      rw [ih hrest (by simp)]

theorem findDescLoop_skip {pre rest : List Str}
    (h : ∀ l ∈ pre, matchesDescHeading l = false) :
    findDescLoop (pre ++ rest) = findDescLoop rest := by
  induction pre with
  | nil => rfl
  | cons a t ih =>
    rw [List.cons_append, findDescLoop, if_neg (by simp [h a (by simp)])]
    exact ih (fun l hl => h l (by simp [hl]))

theorem findDescLoop_none {ls : List Str}
    (h : ∀ l ∈ ls, matchesDescHeading l = false) :
    findDescLoop ls = none := by
  have h0 := @findDescLoop_skip ls [] h
  simpa using h0

theorem takeWhile_all {p : Str → Bool} {l : List Str}
    (h : ∀ x ∈ l, p x = true) : l.takeWhile p = l := by
  induction l with
  | nil => rfl
  | cons a t ih =>
    rw [List.takeWhile_cons, if_pos (h a (by simp))]
    rw [ih (fun x hx => h x (by simp [hx]))]

theorem paraGroupsGo_through {r : List Str} (l : List Str) (cur : List Str)
    (h : ∀ x ∈ l, x ≠ []) (hne : cur ≠ [] ∨ l ≠ []) :
    paraGroupsGo cur (l ++ [] :: r) = (cur.reverse ++ l) :: paraGroupsGo [] r := by
  induction l generalizing cur with
  | nil =>
    have hc : cur ≠ [] := by
      rcases hne with h1 | h1
      · exact h1
      · exact absurd rfl h1
    simp [paraGroupsGo, hc]
  | cons x t ih =>
    have hx : x ≠ [] := h x (by simp)
    rw [List.cons_append, paraGroupsGo, if_neg hx]
    rw [ih (x :: cur) (fun y hy => h y (by simp [hy])) (Or.inl (by simp))]
    simp

theorem paraGroupsGo_final (l : List Str) (cur : List Str)
    (h : ∀ x ∈ l, x ≠ []) (hne : cur ≠ [] ∨ l ≠ []) :
    paraGroupsGo cur l = [cur.reverse ++ l] := by
  induction l generalizing cur with
  | nil =>
    have hc : cur ≠ [] := by
      rcases hne with h1 | h1
      · exact h1
      · exact absurd rfl h1
    simp [paraGroupsGo, hc]
  | cons x t ih =>
    have hx : x ≠ [] := h x (by simp)
    rw [paraGroupsGo, if_neg hx]
    rw [ih (x :: cur) (fun y hy => h y (by simp [hy])) (Or.inl (by simp))]
    simp

theorem paraGroups_two {p1 p2 : List Str}
    (h1 : ∀ x ∈ p1, x ≠ []) (h2 : ∀ x ∈ p2, x ≠ [])
    (hne1 : p1 ≠ []) (hne2 : p2 ≠ []) :
    paraGroups (p1 ++ [] :: p2) = [p1, p2] := by
  unfold paraGroups
  rw [paraGroupsGo_through p1 [] h1 (Or.inr hne1)]
  rw [paraGroupsGo_final p2 [] h2 (Or.inr hne2)]
  simp

theorem findDescBlock_section (pre : List Str) (hd : Str) (p1 p2 : List Str)
    (hnl : ∀ l ∈ pre ++ [hd] ++ p1 ++ [[]] ++ p2, ('\n' : Char) ∉ l)
    (hstrip : ∀ l ∈ pre ++ [hd] ++ p1 ++ [[]] ++ p2, pyStrip l = l)
    (hpre : ∀ l ∈ pre, matchesDescHeading l = false)
    (hhd : matchesDescHeading hd = true)
    (hp1 : ∀ l ∈ p1, l ≠ [] ∧ looksLikeHeading l = false)
    (hp2 : ∀ l ∈ p2, l ≠ [] ∧ looksLikeHeading l = false)
    (hp1ne : p1 ≠ []) (hp2ne : p2 ≠ []) :
    findDescriptionBlock (joinWith ['\n'] (pre ++ [hd] ++ p1 ++ [[]] ++ p2)) =
      pyStrip ((joinWith (lstr " ") p1 ++ lstr "\n\n" ++ joinWith (lstr " ") p2).take 1200) := by
  have hdne : hd ≠ [] := by
    intro he
    rw [he] at hhd
    exact absurd hhd (by decide)
  have hdmem : hd ∈ pre ++ [hd] ++ p1 ++ [[]] ++ p2 := by simp
  have htext : joinWith ['\n'] (pre ++ [hd] ++ p1 ++ [[]] ++ p2) ≠ [] :=
    joinWith_ne_nil hdmem hdne
  have hsplit : splitOnChar '\n' (joinWith ['\n'] (pre ++ [hd] ++ p1 ++ [[]] ++ p2)) =
      pre ++ [hd] ++ p1 ++ [[]] ++ p2 :=
    splitOnChar_joinWith hnl (by simp)
  have hmap : (pre ++ [hd] ++ p1 ++ [[]] ++ p2).map pyStrip =
      pre ++ [hd] ++ p1 ++ [[]] ++ p2 := by
    have h0 : (pre ++ [hd] ++ p1 ++ [[]] ++ p2).map pyStrip =
        (pre ++ [hd] ++ p1 ++ [[]] ++ p2).map id :=
      List.map_congr_left hstrip
    simpa using h0
  obtain ⟨a, p1t, hp1a⟩ := List.exists_cons_of_ne_nil hp1ne
  have hane : a ≠ [] := (hp1 a (by simp [hp1a])).1
  have hj1ne : joinWith (lstr " ") p1 ≠ [] := joinWith_ne_nil (by simp [hp1a]) hane
  obtain ⟨p2i, lastL, hp2l⟩ := List.eq_nil_or_concat p2 |>.resolve_left hp2ne
  rw [List.concat_eq_append] at hp2l
  have hlastne : lastL ≠ [] := (hp2 lastL (by simp [hp2l])).1
  have hj2ne : joinWith (lstr " ") p2 ≠ [] := joinWith_ne_nil (by simp [hp2l]) hlastne
  -- The candidate block is already stripped: its first and last characters
  -- come from stripped non-empty lines.
  have hJstrip : pyStrip (joinWith (lstr " ") p1 ++ lstr "\n\n" ++ joinWith (lstr " ") p2) =
      joinWith (lstr " ") p1 ++ lstr "\n\n" ++ joinWith (lstr " ") p2 := by
    apply pyStrip_eq_self
    · intro c t hct
      have hh1 : (joinWith (lstr " ") p1 ++ lstr "\n\n" ++ joinWith (lstr " ") p2).head? =
          (joinWith (lstr " ") p1).head? := by
        rw [List.append_assoc]
        cases hj : joinWith (lstr " ") p1 with
        | nil => exact absurd hj hj1ne
        | cons u v => simp
      have hh2 : (joinWith (lstr " ") p1).head? = a.head? := by
        rw [hp1a]
        exact joinWith_head? p1t hane
      obtain ⟨c0, t0, hc0⟩ := List.exists_cons_of_ne_nil hane
      have hsp : pyIsSpace c0 = false :=
        strip_self_head (hstrip a (by simp [hp1a])) hc0
      have : c = c0 := by
        rw [hct] at hh1
        rw [hh2, hc0] at hh1
        simpa using hh1
      rw [this]
      exact hsp
    · intro c hc
      have hl1 : (joinWith (lstr " ") p1 ++ lstr "\n\n" ++ joinWith (lstr " ") p2).getLast? =
          (joinWith (lstr " ") p2).getLast? :=
        List.getLast?_append_of_ne_nil _ hj2ne
      have hl2 : (joinWith (lstr " ") p2).getLast? = lastL.getLast? := by
        rw [hp2l]
        exact joinWith_getLast? p2i hlastne
      obtain ⟨c1, hc1⟩ : ∃ c1, lastL.getLast? = some c1 := by
        cases hgl : lastL.getLast? with
        | none =>
          rw [List.getLast?_eq_none_iff] at hgl
          exact absurd hgl hlastne
        | some c1 => exact ⟨c1, rfl⟩
      have hsp : pyIsSpace c1 = false :=
        strip_self_last (hstrip lastL (by simp [hp2l])) hc1
      have : c = c1 := by
        rw [hc, hl2, hc1] at hl1
        simpa using hl1
      rw [this]
      exact hsp
  have hblock : collectBlock (p1 ++ [[]] ++ p2) = p1 ++ [[]] ++ p2 := by
    apply takeWhile_all
    intro x hx
    simp only [List.append_assoc, List.mem_append, List.mem_singleton] at hx
    rcases hx with hx | hx | hx
    · simp [(hp1 x hx).2]
    · rw [hx]; decide
    · simp [(hp2 x hx).2]
  have hgroups : normalizeParagraphs (p1 ++ [[]] ++ p2) =
      joinWith (lstr " ") p1 ++ lstr "\n\n" ++ joinWith (lstr " ") p2 := by
    unfold normalizeParagraphs
    have : p1 ++ [[]] ++ p2 = p1 ++ [] :: p2 := by simp
    rw [this, paraGroups_two (fun x hx => (hp1 x hx).1) (fun x hx => (hp2 x hx).1) hp1ne hp2ne]
    simp [joinWith, List.append_assoc]
  have hJne : joinWith (lstr " ") p1 ++ lstr "\n\n" ++ joinWith (lstr " ") p2 ≠ [] := by
    intro he
    simp only [List.append_assoc, List.append_eq_nil] at he
    exact hj1ne he.1
  unfold findDescriptionBlock
  rw [if_neg htext]
  rw [hsplit, hmap]
  have hassoc : pre ++ [hd] ++ p1 ++ [[]] ++ p2 = pre ++ ([hd] ++ (p1 ++ [[]] ++ p2)) := by
    simp [List.append_assoc]
  rw [hassoc]
  dsimp only
  rw [findDescLoop_skip hpre]
  rw [show [hd] ++ (p1 ++ [[]] ++ p2) = hd :: (p1 ++ [[]] ++ p2) from rfl]
  rw [findDescLoop, if_pos hhd]
  rw [hblock, hgroups, hJstrip]
  rw [if_pos hJne]

theorem getLast?_mem_self {l : Str} {a : Char} (h : l.getLast? = some a) : a ∈ l := by
  induction l with
  | nil => cases h
  | cons x t ih =>
    cases t with
    | nil =>
      simp only [List.getLast?_singleton, Option.some.injEq] at h
      simp [h]
    | cons y u =>
      rw [List.getLast?_cons_cons] at h
      exact List.mem_cons_of_mem _ (ih h)

theorem pyStrip_replicate {n : Nat} {c : Char} (hc : pyIsSpace c = false) :
    pyStrip (List.replicate n c) = List.replicate n c := by
  apply pyStrip_eq_self
  · intro d t hdt
    have hmem : d ∈ List.replicate n c := by rw [hdt]; simp
    rw [List.eq_of_mem_replicate hmem]
    exact hc
  · intro d hd
    have hmem : d ∈ List.replicate n c := getLast?_mem_self hd
    rw [List.eq_of_mem_replicate hmem]
    exact hc

theorem pyStrip_repl_space {n : Nat} (hn : 0 < n) {c : Char} (hc : pyIsSpace c = true) :
    pyStrip (List.replicate n 'a' ++ [c]) = List.replicate n 'a' := by
  obtain ⟨m, rfl⟩ : ∃ m, n = m + 1 := ⟨n - 1, by omega⟩
  unfold pyStrip
  have h1 : (List.replicate (m + 1) 'a' ++ [c]).dropWhile pyIsSpace =
      List.replicate (m + 1) 'a' ++ [c] := by
    apply dropWhile_eq_self_head
    intro d t hdt
    rw [List.replicate_succ, List.cons_append] at hdt
    have hda : d = 'a' := by
      injection hdt with h1 h2
      exact h1.symm
    rw [hda]
    decide
  rw [h1, List.reverse_append, List.reverse_singleton, List.reverse_replicate]
  rw [List.singleton_append, List.dropWhile_cons, if_pos hc]
  have h2 : (List.replicate (m + 1) 'a').dropWhile pyIsSpace =
      List.replicate (m + 1) 'a' := by
    apply dropWhile_eq_self_head
    intro d t hdt
    have hmem : d ∈ List.replicate (m + 1) 'a' := by rw [hdt]; simp
    rw [List.eq_of_mem_replicate hmem]
    decide
  rw [h2, List.reverse_replicate]

theorem looksLikeHeading_repl_a {n : Nat} (hn : 4 < n) :
    looksLikeHeading (List.replicate n 'a') = false := by
  have hne : List.replicate n 'a' ≠ [] := by
    intro h
    have := congrArg List.length h
    simp at this
    omega
  unfold looksLikeHeading
  rw [if_neg hne]
  rw [if_neg (by simp [List.length_replicate]; omega)]
  have hupper : pyIsUpperStr (List.replicate n 'a') = false := by
    unfold pyIsUpperStr
    have hall : (List.replicate n 'a').all (fun c => !pyCased c || c.isUpper) = false := by
      rw [List.all_eq_false]
      exact ⟨'a', by simp [List.mem_replicate]; omega, by decide⟩
    rw [hall, Bool.and_false]
  rw [if_neg (by simp [hupper])]
  have htc : titleCaseShort (List.replicate n 'a') = false := by
    obtain ⟨m, rfl⟩ : ∃ m, n = m + 1 := ⟨n - 1, by omega⟩
    rw [List.replicate_succ]
    unfold titleCaseShort
    simp
  rw [if_neg (by simp [htc])]

/-- C4 (amended): for a text whose newline-free, pre-stripped lines are: any
prefix of lines not matching the Description heading, a line matching the
heading, a first paragraph, a blank line, and a second paragraph of
non-blank non-heading lines ending the text, `_find_description_block`
returns the two paragraphs (lines joined by spaces) joined with a blank
line, truncated to the first 1200 characters AND stripped of surrounding
whitespace. -/
theorem c4_description_section (pre : List Str) (hd : Str) (p1 p2 : List Str)
    (hnl : ∀ l ∈ pre ++ [hd] ++ p1 ++ [[]] ++ p2, ('\n' : Char) ∉ l)
    (hstrip : ∀ l ∈ pre ++ [hd] ++ p1 ++ [[]] ++ p2, pyStrip l = l)
    (hpre : ∀ l ∈ pre, matchesDescHeading l = false)
    (hhd : matchesDescHeading hd = true)
    (hp1 : ∀ l ∈ p1, l ≠ [] ∧ looksLikeHeading l = false)
    (hp2 : ∀ l ∈ p2, l ≠ [] ∧ looksLikeHeading l = false)
    (hp1ne : p1 ≠ []) (hp2ne : p2 ≠ []) :
    findDescriptionBlock (joinWith ['\n'] (pre ++ [hd] ++ p1 ++ [[]] ++ p2)) =
      pyStrip ((joinWith (lstr " ") p1 ++ lstr "\n\n" ++ joinWith (lstr " ") p2).take 1200) :=
  findDescBlock_section pre hd p1 p2 hnl hstrip hpre hhd hp1 hp2 hp1ne hp2ne

/-- C4 witness: the amended section extraction at a small concrete text. -/
theorem c4_witness :
    findDescriptionBlock (joinWith ['\n'] ([] ++ [lstr "Description"] ++
      [lstr "first paragraph line alpha"] ++ [[]] ++ [lstr "second paragraph line beta"])) =
      pyStrip ((joinWith (lstr " ") [lstr "first paragraph line alpha"] ++ lstr "\n\n" ++
        joinWith (lstr " ") [lstr "second paragraph line beta"]).take 1200) :=
  c4_description_section [] (lstr "Description") [lstr "first paragraph line alpha"]
    [lstr "second paragraph line beta"] (by decide) (by decide) (by simp) (by decide)
    (by decide) (by decide) (by simp) (by simp)

/-- C4 counterexample: a Description heading followed by a 1199-character
paragraph and a 5-character paragraph. The joined paragraphs cut at 1200
characters end in a newline, which the code strips before returning: the
result has 1199 characters and is not the claimed first-1200-character
truncation. -/
theorem c4_counterexample :
    matchesDescHeading (lstr "Description") = true ∧
    looksLikeHeading c4Para1 = false ∧
    looksLikeHeading c4Para2 = false ∧
    findDescriptionBlock cex4Text = c4Para1 ∧
    findDescriptionBlock cex4Text ≠ (c4Para1 ++ lstr "\n\n" ++ c4Para2).take 1200 := by
  have h1 : matchesDescHeading (lstr "Description") = true := by decide
  have hp1h : looksLikeHeading c4Para1 = false := looksLikeHeading_repl_a (by norm_num)
  have hp2h : looksLikeHeading c4Para2 = false := by decide
  have hp1len : c4Para1.length = 1199 := by
    show (List.replicate 1199 'a').length = 1199
    exact List.length_replicate 1199 'a'
  have hp1ne : c4Para1 ≠ [] := by
    intro h
    have h2 := congrArg List.length h
    rw [hp1len] at h2
    simp at h2
  have htext : cex4Text =
      joinWith ['\n'] ([] ++ [lstr "Description"] ++ [c4Para1] ++ [[]] ++ [c4Para2]) := by
    show cex4Text = joinWith ['\n'] [lstr "Description", c4Para1, [], c4Para2]
    have e1 : lstr "Description\n" = lstr "Description" ++ ['\n'] := by decide
    have e2 : lstr "\n\n" = ['\n'] ++ [] ++ ['\n'] := by decide
    unfold cex4Text
    rw [e1, e2]
    simp [joinWith, List.append_assoc]
  have hres : findDescriptionBlock cex4Text =
      pyStrip ((joinWith (lstr " ") [c4Para1] ++ lstr "\n\n" ++
        joinWith (lstr " ") [c4Para2]).take 1200) := by
    rw [htext]
    apply findDescBlock_section
    · intro l hl
      simp only [List.append_assoc, List.nil_append, List.singleton_append,
        List.cons_append, List.mem_cons, List.mem_singleton,
        List.not_mem_nil, or_false] at hl
      rcases hl with rfl | rfl | rfl | rfl
      · decide
      · show ('\n' : Char) ∉ List.replicate 1199 'a'
        rw [List.mem_replicate]
        simp
      · simp
      · decide
    · intro l hl
      simp only [List.append_assoc, List.nil_append, List.singleton_append,
        List.cons_append, List.mem_cons, List.mem_singleton,
        List.not_mem_nil, or_false] at hl
      rcases hl with rfl | rfl | rfl | rfl
      · decide
      · exact pyStrip_replicate (by decide)
      · rfl
      · decide
    · intro l hl
      cases hl
    · exact h1
    · intro l hl
      rcases List.mem_singleton.mp hl with rfl
      exact ⟨hp1ne, hp1h⟩
    · intro l hl
      rcases List.mem_singleton.mp hl with rfl
      exact ⟨by decide, hp2h⟩
    · simp
    · simp
  have hjoin1 : joinWith (lstr " ") [c4Para1] = c4Para1 := rfl
  have hjoin2 : joinWith (lstr " ") [c4Para2] = c4Para2 := rfl
  rw [hjoin1, hjoin2] at hres
  have htake : (c4Para1 ++ lstr "\n\n" ++ c4Para2).take 1200 = c4Para1 ++ ['\n'] := by
    rw [List.append_assoc, List.take_append_eq_append_take]
    rw [List.take_of_length_le (by rw [hp1len]; norm_num)]
    rw [hp1len]
    congr 1
  have hstripped : pyStrip (c4Para1 ++ ['\n']) = c4Para1 := by
    unfold c4Para1
    exact pyStrip_repl_space (by norm_num) (by decide)
  refine ⟨h1, hp1h, hp2h, ?_, ?_⟩
  · rw [hres, htake, hstripped]
  · rw [hres, htake, hstripped]
    intro h
    have h2 := congrArg List.length h
    rw [List.length_append, hp1len] at h2
    simp at h2

theorem matchBlankSep_length {l r : Str} (h : matchBlankSep l = some r) :
    r.length < l.length := by
  cases l with
  | nil => simp [matchBlankSep] at h
  | cons c rest =>
    simp only [matchBlankSep] at h
    split at h
    · split at h
      · cases h
        simp [List.length_drop]
        omega
      · exact absurd h (by simp)
    · exact absurd h (by simp)

theorem pySplitBlankGo_fuel {f1 : Nat} : ∀ {f2 : Nat} {acc l : Str},
    l.length < f1 → l.length < f2 →
    pySplitBlankGo f1 acc l = pySplitBlankGo f2 acc l := by
  induction f1 with
  | zero => intro f2 acc l h1 _; omega
  | succ f1 ih =>
    intro f2 acc l h1 h2
    cases f2 with
    | zero => omega
    | succ f2 =>
      cases l with
      | nil => rfl
      | cons c rest =>
        cases hm : matchBlankSep (c :: rest) with
        | some rest' =>
          have hl := matchBlankSep_length hm
          have hcr1 : (c :: rest).length ≤ f1 := Nat.lt_succ_iff.mp h1
          have hcr2 : (c :: rest).length ≤ f2 := Nat.lt_succ_iff.mp h2
          have e1 : rest'.length < f1 := by omega
          have e2 : rest'.length < f2 := by omega
          simp only [pySplitBlankGo, hm]
          rw [@ih f2 [] rest' e1 e2]
        | none =>
          have h1' : rest.length < f1 := by
            simp only [List.length_cons] at h1
            omega
          have h2' : rest.length < f2 := by
            simp only [List.length_cons] at h2
            omega
          simp only [pySplitBlankGo, hm]
          rw [@ih f2 (c :: acc) rest h1' h2']

theorem pySplitBlankGo_no_nl {l : Str} : ∀ (acc : Str) (fuel : Nat),
    ('\n' : Char) ∉ l → l.length < fuel →
    pySplitBlankGo fuel acc l = [acc.reverse ++ l] := by
  induction l with
  | nil =>
    intro acc fuel _ hf
    match fuel, hf with
    | f + 1, _ => simp [pySplitBlankGo]
  | cons c rest ih =>
    intro acc fuel hnl hf
    match fuel, hf with
    | f + 1, hf =>
      have hc : c ≠ '\n' := fun h => hnl (by simp [h])
      have hm : matchBlankSep (c :: rest) = none := by
        simp [matchBlankSep, hc]
      simp only [pySplitBlankGo, hm]
      rw [ih (c :: acc) f (fun h => hnl (List.mem_cons_of_mem _ h))
        (by simp at hf ⊢; omega)]
      simp

theorem matchBlankSep_two_nl {rest : Str}
    (hrest : ∀ d r0, rest = d :: r0 → pyIsSpace d = false) :
    matchBlankSep ('\n' :: '\n' :: rest) = some rest := by
  have hrest0 : rest.takeWhile pyIsSpace = [] := by
    cases rest with
    | nil => rfl
    | cons d r0 =>
      rw [List.takeWhile_cons, if_neg (by simp [hrest d r0 rfl])]
  simp only [matchBlankSep]
  rw [if_pos trivial]
  rw [List.takeWhile_cons, if_pos (by decide), hrest0]
  simp

theorem pySplitBlankGo_chunk {ch : Str} {rest : Str} : ∀ (acc : Str) (fuel : Nat),
    ('\n' : Char) ∉ ch →
    (∀ d r0, rest = d :: r0 → pyIsSpace d = false) →
    (ch ++ '\n' :: '\n' :: rest).length < fuel →
    pySplitBlankGo fuel acc (ch ++ '\n' :: '\n' :: rest) =
      (acc.reverse ++ ch) :: pySplitBlankGo (rest.length + 1) [] rest := by
  induction ch with
  | nil =>
    intro acc fuel _ hrest hf
    match fuel, hf with
    | f + 1, hf =>
      have hm := matchBlankSep_two_nl hrest
      simp only [List.nil_append] at hf ⊢
      have e1 : rest.length < f := by
        simp only [List.length_cons] at hf
        omega
      rw [show pySplitBlankGo (f + 1) acc ('\n' :: '\n' :: rest) =
        acc.reverse :: pySplitBlankGo f [] rest from by
          simp only [pySplitBlankGo, hm]]
      rw [@pySplitBlankGo_fuel f (rest.length + 1) [] rest e1 (by omega)]
      simp
  | cons x t ih =>
    intro acc fuel hnl hrest hf
    match fuel, hf with
    | f + 1, hf =>
      have hx : x ≠ '\n' := fun h => hnl (by simp [h])
      have hm : matchBlankSep (x :: (t ++ '\n' :: '\n' :: rest)) = none := by
        simp [matchBlankSep, hx]
      show pySplitBlankGo (f + 1) acc ((x :: t) ++ '\n' :: '\n' :: rest) = _
      rw [List.cons_append]
      rw [show pySplitBlankGo (f + 1) acc (x :: (t ++ '\n' :: '\n' :: rest)) =
        pySplitBlankGo f (x :: acc) (t ++ '\n' :: '\n' :: rest) from by
          simp only [pySplitBlankGo, hm]]
      rw [ih (x :: acc) f (fun h => hnl (List.mem_cons_of_mem _ h)) hrest
        (by simp at hf ⊢; omega)]
      simp

theorem pySplitBlank_join : ∀ (chunks : List Str),
    (∀ c ∈ chunks, c ≠ [] ∧ ('\n' : Char) ∉ c ∧
      (∀ d t, c = d :: t → pyIsSpace d = false)) →
    chunks ≠ [] →
    pySplitBlank (joinWith (lstr "\n\n") chunks) = chunks := by
  intro chunks
  induction chunks with
  | nil => intro _ hne; exact absurd rfl hne
  | cons c rest ih =>
    intro h hne
    cases rest with
    | nil =>
      unfold pySplitBlank
      rw [show joinWith (lstr "\n\n") [c] = c from rfl]
      rw [pySplitBlankGo_no_nl [] (c.length + 1) (h c (by simp)).2.1 (by omega)]
      simp
    | cons c2 r =>
      have hc2 := h c2 (by simp)
      have hjoin : joinWith (lstr "\n\n") (c :: c2 :: r) =
          c ++ '\n' :: '\n' :: joinWith (lstr "\n\n") (c2 :: r) := by
        rw [joinWith]
        simp [lstr, List.append_assoc]
      have hrhead : ∀ d r0, joinWith (lstr "\n\n") (c2 :: r) = d :: r0 →
          pyIsSpace d = false := by
        intro d r0 hdr
        have hh : (joinWith (lstr "\n\n") (c2 :: r)).head? = c2.head? :=
          joinWith_head? r hc2.1
        rw [hdr] at hh
        obtain ⟨d2, t2, hd2⟩ := List.exists_cons_of_ne_nil hc2.1
        rw [hd2] at hh
        simp only [List.head?_cons, Option.some.injEq] at hh
        rw [hh]
        exact hc2.2.2 d2 t2 hd2
      unfold pySplitBlank
      rw [hjoin]
      rw [pySplitBlankGo_chunk []
        ((c ++ '\n' :: '\n' :: joinWith (lstr "\n\n") (c2 :: r)).length + 1)
        (h c (by simp)).2.1 hrhead (by omega)]
      simp only [List.reverse_nil, List.nil_append]
      congr 1
      have hrec := ih (fun x hx => h x (by simp [hx])) (by simp)
      unfold pySplitBlank at hrec
      exact hrec

theorem mem_splitOnChar_join2 {ls : List Str}
    (h : ∀ l ∈ ls, ('\n' : Char) ∉ l) (hne : ls ≠ []) :
    ∀ x ∈ splitOnChar '\n' (joinWith (lstr "\n\n") ls), x = [] ∨ x ∈ ls := by
  induction ls with
  | nil => exact absurd rfl hne
  | cons c rest ih =>
    cases rest with
    | nil =>
      intro x hx
      rw [show joinWith (lstr "\n\n") [c] = c from rfl] at hx
      rw [splitOnChar_no_sep (h c (by simp))] at hx
      rcases List.mem_singleton.mp hx with rfl
      exact Or.inr (by simp)
    | cons c2 r =>
      intro x hx
      have hjoin : joinWith (lstr "\n\n") (c :: c2 :: r) =
          c ++ '\n' :: ('\n' :: joinWith (lstr "\n\n") (c2 :: r)) := by
        rw [joinWith]
        simp [lstr, List.append_assoc]
      rw [hjoin, splitOnChar_append_cons (h c (by simp))] at hx
      rw [show splitOnChar '\n' ('\n' :: joinWith (lstr "\n\n") (c2 :: r)) =
        [] :: splitOnChar '\n' (joinWith (lstr "\n\n") (c2 :: r)) from by
          rw [splitOnChar]
          simp] at hx
      rcases List.mem_cons.mp hx with rfl | hx2
      · exact Or.inr (by simp)
      · rcases List.mem_cons.mp hx2 with rfl | hx3
        · exact Or.inl rfl
        · rcases ih (fun l hl => h l (by simp [hl])) (by simp) x hx3 with h4 | h4
          · exact Or.inl h4
          · exact Or.inr (by simp [h4])

theorem findDescBlock_fallback (chunks : List Str) (hne : chunks ≠ [])
    (hprops : ∀ c ∈ chunks, c ≠ [] ∧ pyStrip c = c ∧ ('\n' : Char) ∉ c ∧
      matchesDescHeading c = false)
    (p : Str) (hfind : chunks.find? (fun c => decide (40 ≤ c.length)) = some p) :
    findDescriptionBlock (joinWith (lstr "\n\n") chunks) = pyStrip (p.take 1200) := by
  obtain ⟨c0, rest0, rfl⟩ := List.exists_cons_of_ne_nil hne
  have hc0 := hprops c0 (by simp)
  have htext : joinWith (lstr "\n\n") (c0 :: rest0) ≠ [] :=
    joinWith_ne_nil (by simp) hc0.1
  unfold findDescriptionBlock
  rw [if_neg htext]
  dsimp only
  have hloop : findDescLoop
      ((splitOnChar '\n' (joinWith (lstr "\n\n") (c0 :: rest0))).map pyStrip) = none := by
    apply findDescLoop_none
    intro l hl
    obtain ⟨x, hx, rfl⟩ := List.mem_map.mp hl
    rcases mem_splitOnChar_join2 (fun l2 hl2 => (hprops l2 hl2).2.2.1) (by simp) x hx with
      rfl | hx2
    · decide
    · rw [(hprops x hx2).2.1]
      exact (hprops x hx2).2.2.2
  rw [hloop]
  have hsplit : pySplitBlank (joinWith (lstr "\n\n") (c0 :: rest0)) = c0 :: rest0 := by
    apply pySplitBlank_join
    · intro c hc
      refine ⟨(hprops c hc).1, (hprops c hc).2.2.1, ?_⟩
      intro d t hdt
      exact strip_self_head (hprops c hc).2.1 hdt
    · simp
  rw [hsplit]
  have hmap : (c0 :: rest0).map pyStrip = c0 :: rest0 := by
    have h0 : (c0 :: rest0).map pyStrip = (c0 :: rest0).map id :=
      List.map_congr_left (fun x hx => (hprops x hx).2.1)
    simpa using h0
  rw [hmap]
  have hfilter : (c0 :: rest0).filter (fun q => decide (q ≠ [])) = c0 :: rest0 := by
    rw [List.filter_eq_self]
    intro a ha
    simpa using (hprops a ha).1
  rw [hfilter, hfind]

theorem matchesDescHeading_cons_a (X : Str) :
    matchesDescHeading ('a' :: X) = false := by
  have h1 : ('a' :: X).dropWhile pyIsSpace = 'a' :: X := by
    rw [List.dropWhile_cons, if_neg (by decide)]
  have h2 : beginsCI ('a' :: X) (lstr "description") = false := by
    rw [show lstr "description" = 'd' :: lstr "escription" from rfl]
    simp only [beginsCI]
    simp
  simp [matchesDescHeading, h1, h2]

/-- C6 (amended): for every non-empty text assembled as blank-line-separated
paragraphs none of which is a Description heading, `_find_description_block`
returns the first paragraph whose length is at least 40 characters, truncated
to the first 1200 characters and stripped of surrounding whitespace. -/
theorem c6_paragraph_fallback (chunks : List Str) (hne : chunks ≠ [])
    (hprops : ∀ c ∈ chunks, c ≠ [] ∧ pyStrip c = c ∧ ('\n' : Char) ∉ c ∧
      matchesDescHeading c = false)
    (p : Str) (hfind : chunks.find? (fun c => decide (40 ≤ c.length)) = some p) :
    findDescriptionBlock (joinWith (lstr "\n\n") chunks) = pyStrip (p.take 1200) :=
  findDescBlock_fallback chunks hne hprops p hfind

/-- Closed instance of C6: a short first paragraph is skipped and the first
paragraph of length at least 40 is returned. -/
theorem c6_witness :
    findDescriptionBlock (joinWith (lstr "\n\n")
      [lstr "tiny", lstr "this paragraph is long enough to pass forty chars"]) =
    pyStrip ((lstr "this paragraph is long enough to pass forty chars").take 1200) :=
  c6_paragraph_fallback
    [lstr "tiny", lstr "this paragraph is long enough to pass forty chars"]
    (by decide) (by decide)
    (lstr "this paragraph is long enough to pass forty chars") (by decide)

/-- Counterexample to C6 as stated: a single 1201-character paragraph with no
Description heading whose 1200-character prefix ends in a space; the function
returns the stripped prefix, not the bare 1200-character prefix the claim
describes. -/
theorem c6_counterexample :
    matchesDescHeading cex6Text = false ∧
    40 ≤ cex6Text.length ∧
    findDescriptionBlock cex6Text ≠ cex6Text.take 1200 := by
  have hlen2 : (lstr " b").length = 2 := rfl
  have hlen : cex6Text.length = 1201 := by
    show (List.replicate 1199 'a' ++ lstr " b").length = 1201
    rw [List.length_append, List.length_replicate, hlen2]
  have hshape : cex6Text = 'a' :: (List.replicate 1198 'a' ++ lstr " b") := by
    show List.replicate 1199 'a' ++ lstr " b" = _
    rw [show (1199 : Nat) = 1198 + 1 from rfl, List.replicate_succ, List.cons_append]
  have hmdh : matchesDescHeading cex6Text = false := by
    rw [hshape]
    exact matchesDescHeading_cons_a _
  have hsplit : cex6Text = (List.replicate 1199 'a' ++ [' ']) ++ ['b'] := by
    show List.replicate 1199 'a' ++ lstr " b" = _
    rw [show lstr " b" = [' '] ++ ['b'] from rfl, ← List.append_assoc]
  have hstrip : pyStrip cex6Text = cex6Text := by
    apply pyStrip_eq_self
    · intro c t hct
      rw [hshape] at hct
      injection hct with h1 _
      rw [← h1]
      decide
    · intro c hc
      rw [hsplit] at hc
      rw [List.getLast?_append_of_ne_nil (List.replicate 1199 'a' ++ [' '])
        (by simp)] at hc
      rw [show (['b'] : Str).getLast? = some 'b' from rfl] at hc
      injection hc with h1
      rw [← h1]
      decide
  have hnl : ('\n' : Char) ∉ cex6Text := by
    show ('\n' : Char) ∉ List.replicate 1199 'a' ++ lstr " b"
    intro hmem
    rcases List.mem_append.mp hmem with hm | hm
    · exact absurd (List.eq_of_mem_replicate hm) (by decide)
    · revert hm
      decide
  have hnenil : cex6Text ≠ [] := by
    intro h
    rw [h] at hlen
    simp at hlen
  have hp : (decide (40 ≤ cex6Text.length)) = true := by
    rw [hlen]
    decide
  have hfind : [cex6Text].find? (fun c => decide (40 ≤ c.length)) = some cex6Text :=
    List.find?_cons_of_pos _ hp
  have hres := findDescBlock_fallback [cex6Text] (by simp)
    (by
      intro c hc
      rw [List.mem_singleton] at hc
      subst hc
      exact ⟨hnenil, hstrip, hnl, hmdh⟩)
    cex6Text hfind
  rw [show joinWith (lstr "\n\n") [cex6Text] = cex6Text from rfl] at hres
  have hA : (List.replicate 1199 'a' ++ [' '] : Str).length = 1200 := by
    rw [List.length_append, List.length_replicate]
    decide
  have htake : cex6Text.take 1200 = List.replicate 1199 'a' ++ [' '] := by
    rw [hsplit, List.take_append_eq_append_take,
      List.take_of_length_le (le_of_eq hA), hA]
    rw [show (1200 - 1200 : Nat) = 0 from rfl, List.take_zero, List.append_nil]
  have hstrtake : pyStrip (cex6Text.take 1200) = List.replicate 1199 'a' := by
    rw [htake]
    exact pyStrip_repl_space (by omega) (by decide)
  refine ⟨hmdh, by omega, ?_⟩
  rw [hres, hstrtake, htake]
  intro hcontra
  have h2 := congrArg List.length hcontra
  rw [List.length_replicate, List.length_append, List.length_replicate] at h2
  rw [show ([' '] : Str).length = 1 from rfl] at h2
  omega
